import Mathlib

/-!
RotorActuator

A shallow embedding of `AirLib/include/vehicles/multirotor/RotorActuator.hpp`.

* `real_T` / `float` / `double` values are rationals (`ℚ`). The object as a state
  machine (`setOutput`, `update`, ...) is given in exact arithmetic. The table lookup of
  `setOutput` is given a second time with the rounding of the compiled code
  (`setOutput_binary32`): IEEE 754, round to nearest even, every `float` operation
  rounded to binary32 and every `double` operation to binary64.
* Member functions are functions on the record of the object's fields. A member
  function that can dereference a null pointer or read an array outside its bounds
  returns `Option`, with `none` standing for the undefined behaviour.
* Collaborators whose headers are not part of the sources at hand
  (`FirstOrderFilter`, `PhysicsBodyVertex`, `Utils::clip`, `RotorParams`, ...) are
  modelled from the specification; each such definition says so.
-/

namespace msr.airlib

/-- The scalar type of the library (`real_T`, a `float`), taken as exact rationals. -/
abbrev real_T := ℚ

/-- Three-component vector (`Vector3r`). -/
structure Vector3r where
  x : real_T
  y : real_T
  z : real_T
deriving DecidableEq, Repr

/-- Component-wise product of a vector with a scalar (`v * k`). -/
def Vector3r.scale (v : Vector3r) (k : real_T) : Vector3r :=
  { x := v.x * k, y := v.y * k, z := v.z * k }

/-- A force vector together with a torque vector (`Wrench`). -/
structure Wrench where
  force : Vector3r
  torque : Vector3r
deriving DecidableEq, Repr

/-- Modelled from the spec: the enumeration `RotorTurningDirection` is declared in
`RotorParams.hpp`. The spec has two variants, clockwise and counter-clockwise, that act
as a multiplier of +1 or -1 on the torque. -/
inductive RotorTurningDirection where
  | RotorTurningDirectionCCW
  | RotorTurningDirectionCW
deriving DecidableEq, Repr

/-- Modelled from the spec: the integer behind a turning direction,
`static_cast<int>(turning_direction)`: +1 clockwise, -1 counter-clockwise. -/
def RotorTurningDirection.toInt : RotorTurningDirection → Int
  | .RotorTurningDirectionCCW => -1
  | .RotorTurningDirectionCW => 1

/-- Modelled from the spec: `RotorParams` is declared in `RotorParams.hpp`. Only the
fields that `RotorActuator.hpp` names are kept: the filter time constant and the two
fields of the alternative thrust model, which the code leaves unused. -/
structure RotorParams where
  control_signal_filter_tc : real_T
  max_thrust : real_T
  max_speed_square : real_T
deriving DecidableEq, Repr

/-- Modelled from the spec: `Utils::clip(val, lo, hi)` of `common/Common.hpp`, the
clamp of `val` to the interval `[lo, hi]`. -/
def Utils.clip (val lo hi : real_T) : real_T :=
  if val < lo then lo else if val > hi then hi else val

/-- Modelled from the spec: the state of `FirstOrderFilter<real_T>`
(`common/FirstOrderFilter.hpp`): time constant, pending raw input, filtered output. -/
structure FirstOrderFilter where
  timeConstant : real_T
  input : real_T
  output : real_T
deriving DecidableEq, Repr

/-- Modelled from the spec: `FirstOrderFilter::initialize(tc, initial_input,
initial_output)` binds the time constant and the initial raw and filtered values. -/
def FirstOrderFilter.initialize (tc initial_input initial_output : real_T) :
    FirstOrderFilter :=
  { timeConstant := tc, input := initial_input, output := initial_output }

/-- Modelled from the spec: `FirstOrderFilter::setInput` stores the pending raw input. -/
def FirstOrderFilter.setInput (f : FirstOrderFilter) (v : real_T) : FirstOrderFilter :=
  { f with input := v }

/-- Modelled from the spec: `FirstOrderFilter::getInput`. -/
def FirstOrderFilter.getInput (f : FirstOrderFilter) : real_T := f.input

/-- Modelled from the spec: `FirstOrderFilter::getOutput`, the last smoothed value. -/
def FirstOrderFilter.getOutput (f : FirstOrderFilter) : real_T := f.output

/-- Modelled from the spec: `FirstOrderFilter::reset` zeroes both the raw and the
filtered value. -/
def FirstOrderFilter.reset (f : FirstOrderFilter) : FirstOrderFilter :=
  { f with input := 0, output := 0 }

/-- Modelled from the spec: `FirstOrderFilter::update`, one first-order low-pass step
that moves the filtered value toward the pending raw input. The weight `alpha` of the
old output is what the filter derives from its time constant and the elapsed clock
time; it is an argument of the step here, and it is `0` for time constant `0`. -/
def FirstOrderFilter.update (f : FirstOrderFilter) (alpha : real_T) : FirstOrderFilter :=
  { f with output := alpha * f.output + (1 - alpha) * f.input }

/-- Modelled from the spec: the environment provider (`physics/Environment.hpp`) as the
actuator sees it: the air density of its current state. -/
structure Environment where
  air_density : real_T
deriving DecidableEq, Repr

/-- The nested record `RotorActuator::Output`. -/
structure Output where
  thrust : real_T
  torque_scaler : real_T
  speed : real_T
  turning_direction : RotorTurningDirection
  control_signal_filtered : real_T
  control_signal_input : real_T
deriving DecidableEq, Repr

/-- Modelled from the spec: the fields of the base class `PhysicsBodyVertex`
(`physics/PhysicsBodyVertex.hpp`) that the actuator touches: the attachment position,
the outward normal and the wrench last reported to the body. -/
structure PhysicsBodyVertex where
  position : Vector3r
  normal : Vector3r
  current_wrench : Wrench
deriving DecidableEq, Repr

/-- The fields of `RotorActuator`, on top of those of its base class. The pointer
`environment_` is kept as the flag `environment_bound` (false for `nullptr`); the
state of the environment it points to is an argument of the steps that read it. -/
structure RotorActuator extends PhysicsBodyVertex where
  id_ : Nat
  turning_direction_ : RotorTurningDirection
  params_ : RotorParams
  control_signal_filter_ : FirstOrderFilter
  environment_bound : Bool
  air_density_sea_level_ : real_T
  air_density_ratio_ : real_T
  output_ : Output
deriving DecidableEq, Repr

/-- `float motor_speeds[51]` of `setOutput`. -/
def motor_speeds : List real_T :=
  [0, 0, 0, 0, 0, 0, 0, 0, 3753, 4601, 5322, 5995, 6752, 7466, 8103, 8779, 9529, 10250,
   10872, 11580, 12155, 12798, 13470, 14088, 14744, 15305, 15771, 16240, 16690, 17102,
   17591, 18090, 18598, 19236, 19660, 20172, 20612, 21192, 21536, 19462, 22656, 22908,
   23386, 23785, 24120, 24498, 24890, 25223, 25545, 25853, 26024]

/-- `float motor_thrusts[51]` of `setOutput`. -/
def motor_thrusts : List real_T :=
  [0, 0, 0, 0, 0, 0, 0, 0.00584632270310872, 0.0140733537902564, 0.0206459651921767,
   0.026399911495665, 0.0366524399829979, 0.0479390717525605, 0.0576198156547865,
   0.069191757451541, 0.0840208916811748, 0.100955497458412, 0.115705443598866,
   0.135160093861176, 0.156054104097401, 0.169619722492329, 0.192924311325644,
   0.218814158364533, 0.237798338214658, 0.265252150014848, 0.287170947287517,
   0.30380510413816, 0.326548389162877, 0.347096533774302, 0.366393972388977,
   0.389839469439802, 0.415023610860414, 0.437347664824767, 0.466642599698386,
   0.489689827241867, 0.517066780014324, 0.546315133659014, 0.572179361021992,
   0.599647147190861, 0.630189294469061, 0.662712308507479, 0.68725129990742,
   0.714393017473784, 0.734342593293468, 0.760111329137141, 0.794010818490419,
   0.815931944824534, 0.838023092644242, 0.863345813220917, 0.883708797447349,
   0.894279242822124]

/-- The conversion `static_cast<int>(x)` of a real to an integer: truncation toward
zero. -/
def static_cast_int (x : real_T) : Int :=
  if 0 ≤ x then ⌊x⌋ else ⌈x⌉

/-- The read `table[i]` of a C array with an `int` index: defined only inside the
bounds of the array. -/
def arrayAt (table : List real_T) (i : Int) : Option real_T :=
  if 0 ≤ i then table[i.toNat]? else none

/-- The local `converted_signal` of `setOutput`. -/
def converted_signal (control_signal_filtered : real_T) : real_T :=
  1000 + control_signal_filtered * 1000

/-- The local `rounded` of `setOutput`; the division is the division of reals. -/
def rounded (control_signal_filtered : real_T) : real_T :=
  ((converted_signal control_signal_filtered + 20 - 1) / 20) * 20

/-- The local `closest_idx` of `setOutput`. -/
def closest_idx (control_signal_filtered : real_T) : Int :=
  static_cast_int ((rounded control_signal_filtered - 1000) / 51)

/-- The static method `RotorActuator::setOutput`: the value written to `output`. The
argument `output` is the record before the call; every field of it is overwritten. -/
def setOutput (_output : Output) (_params : RotorParams)
    (control_signal_filter : FirstOrderFilter)
    (turning_direction : RotorTurningDirection) : Option Output := do
  let control_signal_input := control_signal_filter.getInput
  let control_signal_filtered := control_signal_filter.getOutput
  let idx := closest_idx control_signal_filtered
  let speed ← arrayAt motor_speeds idx
  let thrust := (9.8 : real_T) * (← arrayAt motor_thrusts idx)
  let torque_scaler := (thrust * 12) * (turning_direction.toInt : real_T)
  pure { thrust := thrust
         torque_scaler := torque_scaler
         speed := speed
         turning_direction := turning_direction
         control_signal_filtered := control_signal_filtered
         control_signal_input := control_signal_input }

/-- Modelled from the spec: `PhysicsBodyVertex::initialize(position, normal)` binds the
fixed attachment position and outward normal. -/
def PhysicsBodyVertex.initialize (self : PhysicsBodyVertex) (position normal : Vector3r) :
    PhysicsBodyVertex :=
  { self with position := position, normal := normal }

/-- Modelled from the spec: `PhysicsBodyVertex::getNormal`. -/
def PhysicsBodyVertex.getNormal (self : PhysicsBodyVertex) : Vector3r := self.normal

/-- The method `RotorActuator::initialize`. The argument `sea_level` is the value of
`EarthUtils::getAirDensity(0.0f)` and `environment` says whether the environment
pointer handed in is non-null. -/
def RotorActuator.initialize (self : RotorActuator) (sea_level : real_T)
    (position normal : Vector3r) (turning_direction : RotorTurningDirection)
    (params : RotorParams) (environment : Bool) (id : Nat) : RotorActuator :=
  { self with
    id_ := id
    params_ := params
    turning_direction_ := turning_direction
    environment_bound := environment
    air_density_sea_level_ := sea_level
    control_signal_filter_ := FirstOrderFilter.initialize params.control_signal_filter_tc 0 0
    toPhysicsBodyVertex := PhysicsBodyVertex.initialize self.toPhysicsBodyVertex position normal }

/-- The method `RotorActuator::setControlSignal`. -/
def RotorActuator.setControlSignal (self : RotorActuator) (control_signal : real_T) :
    RotorActuator :=
  { self with
    control_signal_filter_ :=
      self.control_signal_filter_.setInput (Utils.clip control_signal 0 1) }

/-- The method `RotorActuator::getOutput`. -/
def RotorActuator.getOutput (self : RotorActuator) : Output := self.output_

/-- The method `RotorActuator::updateEnvironmentalFactors`; `env` is the state of the
environment `environment_` points to. Undefined when the pointer is null. -/
def RotorActuator.updateEnvironmentalFactors (self : RotorActuator) (env : Environment) :
    Option RotorActuator :=
  if self.environment_bound then
    some { self with air_density_ratio_ := env.air_density / self.air_density_sea_level_ }
  else none

/-- The method `RotorActuator::setWrench`: the value written to `wrench`. -/
def RotorActuator.setWrench (self : RotorActuator) (_wrench : Wrench) : Wrench :=
  let normal := self.getNormal
  { force := (normal.scale self.output_.thrust).scale self.air_density_ratio_
    torque := (normal.scale self.output_.torque_scaler).scale self.air_density_ratio_ }

/-- Modelled from the spec: `PhysicsBodyVertex::update` of the base class asks the
vertex for its wrench (`setWrench(current_wrench_)`) and keeps it for the body. -/
def RotorActuator.PhysicsBodyVertex_update (self : RotorActuator) : RotorActuator :=
  { self with current_wrench := self.setWrench self.current_wrench }

/-- Modelled from the spec: `PhysicsBodyVertex::resetImplementation` of the base class;
the geometry is fixed and the spec gives the base reset no effect on the fields the
actuator reads. -/
def RotorActuator.PhysicsBodyVertex_resetImplementation (self : RotorActuator) :
    RotorActuator := self

/-- The method `RotorActuator::resetImplementation`. -/
def RotorActuator.resetImplementation (self : RotorActuator) (env : Environment) :
    Option RotorActuator := do
  let s1 := self.PhysicsBodyVertex_resetImplementation
  let s2 ← s1.updateEnvironmentalFactors env
  let s3 := { s2 with control_signal_filter_ := s2.control_signal_filter_.reset }
  let out ← setOutput s3.output_ s3.params_ s3.control_signal_filter_ s3.turning_direction_
  pure { s3 with output_ := out }

/-- The method `RotorActuator::update`; `alpha` is the weight of the filter step. -/
def RotorActuator.update (self : RotorActuator) (env : Environment) (alpha : real_T) :
    Option RotorActuator := do
  let s1 ← self.updateEnvironmentalFactors env
  let s2 := s1.PhysicsBodyVertex_update
  let out ← setOutput s2.output_ s2.params_ s2.control_signal_filter_ s2.turning_direction_
  let s3 := { s2 with output_ := out }
  pure { s3 with control_signal_filter_ := s3.control_signal_filter_.update alpha }

/-- A default-constructed `RotorActuator()`: the constructor sets no field, so every
field has an arbitrary value and the environment pointer is null; zeros are taken. -/
def RotorActuator.unset : RotorActuator :=
  { position := ⟨0, 0, 0⟩
    normal := ⟨0, 0, 0⟩
    current_wrench := ⟨⟨0, 0, 0⟩, ⟨0, 0, 0⟩⟩
    id_ := 0
    turning_direction_ := .RotorTurningDirectionCW
    params_ := ⟨0, 0, 0⟩
    control_signal_filter_ := ⟨0, 0, 0⟩
    environment_bound := false
    air_density_sea_level_ := 0
    air_density_ratio_ := 0
    output_ := ⟨0, 0, 0, .RotorTurningDirectionCW, 0, 0⟩ }

/-- One simulation tick as the owner of the actuator drives it: the control signal it
sets, the state of the environment at the tick and the weight of the filter step. -/
structure Tick where
  control : real_T
  env : Environment
  alpha : real_T
deriving DecidableEq, Repr

/-- The owner's loop: per tick `setControlSignal` and then `update`. -/
def RotorActuator.run (self : RotorActuator) : List Tick → Option RotorActuator
  | [] => some self
  | t :: ts => do
    let s ← (self.setControlSignal t.control).update t.env t.alpha
    s.run ts

/-- The states an actuator can be in once it has been reset: the result of a reset,
and from there on any `setControlSignal`, `update` and further `reset`. -/
inductive Reachable : RotorActuator → Prop where
  | reset (s s1 : RotorActuator) (env : Environment) :
      s.resetImplementation env = some s1 → Reachable s1
  | setControlSignal (s : RotorActuator) (x : real_T) :
      Reachable s → Reachable (s.setControlSignal x)
  | update (s s1 : RotorActuator) (env : Environment) (alpha : real_T) :
      Reachable s → s.update env alpha = some s1 → Reachable s1

/-- An actuator of the examples: initialized at sea-level density 1.225, pointing
down, clockwise, with a bound environment. -/
def example_actuator : RotorActuator :=
  RotorActuator.initialize RotorActuator.unset 1.225 ⟨1, 2, 3⟩ ⟨0, 0, -1⟩
    .RotorTurningDirectionCW ⟨0, 5, 7⟩ true 3

/-- The example actuator after a reset at sea-level density and one tick with control
signal 1 and a filter of time constant 0 (weight 0): the filter has reached 1 while the
output on record is still the one computed from filter output 0. -/
def example_after_step : RotorActuator :=
  { example_actuator with
    air_density_ratio_ := 1
    control_signal_filter_ := ⟨0, 1, 1⟩
    output_ := ⟨0, 0, 0, .RotorTurningDirectionCW, 0, 1⟩ }

/-- The constructor `RotorActuator(position, normal, turning_direction, params,
environment, id)`: it calls `initialize` on the new object. Neither the constructor nor
`initialize` has a check, a `throw` or an early return, so the construction always
yields an object; `none` would stand for a construction that is refused. -/
def RotorActuator.construct (sea_level : real_T) (position normal : Vector3r)
    (turning_direction : RotorTurningDirection) (params : RotorParams)
    (environment : Bool) (id : Nat) : Option RotorActuator :=
  some ( RotorActuator.initialize RotorActuator.unset sea_level position normal
    turning_direction params environment id)

/-- Modelled from the spec: a value handed to the diagnostics sink, an `int` or a
real (`StateReporter::writeValue` of `common/StateReporter.hpp` is overloaded). -/
inductive ReportValue where
  | int (v : Int)
  | real (v : real_T)
deriving DecidableEq, Repr

/-- Modelled from the spec: the diagnostics sink `StateReporter`, as the structured
emission it has received so far: named values in the order they were written. -/
structure StateReporter where
  entries : List (String × ReportValue)
deriving DecidableEq, Repr

/-- Modelled from the spec: `StateReporter::writeValue(name, value)` emits one named
value. -/
def StateReporter.writeValue (reporter : StateReporter) (name : String)
    (value : ReportValue) : StateReporter :=
  { entries := reporter.entries ++ [(name, value)] }

/-- The method `RotorActuator::reportState`: the object after the call and the
reporter after the six writes. -/
def RotorActuator.reportState (self : RotorActuator) (reporter : StateReporter) :
    RotorActuator × StateReporter :=
  let reporter := reporter.writeValue "Dir" (.int self.turning_direction_.toInt)
  let reporter := reporter.writeValue "Ctrl-in" (.real self.output_.control_signal_input)
  let reporter := reporter.writeValue "Ctrl-fl" (.real self.output_.control_signal_filtered)
  let reporter := reporter.writeValue "speed" (.real self.output_.speed)
  let reporter := reporter.writeValue "thrust" (.real self.output_.thrust)
  let reporter := reporter.writeValue "torque" (.real self.output_.torque_scaler)
  (self, reporter)

/-- The integer ceiling-division pattern in the words of the spec, for an integer
scaled signal `c`: `(c + step - 1) / step` with the division of integers (truncating,
as in C), times the step 20, then the index `(rounded - 1000) / 51`, again with the
division of integers. Kept apart from `closest_idx`, which is what the code computes. -/
def closest_idx_integer (c : Int) : Int :=
  (((c + 20 - 1).tdiv 20) * 20 - 1000).tdiv 51

/-- The states an actuator can reach from the state `init` that `initialize` left:
`init` itself, and from there on any `resetImplementation`, `setControlSignal` (with
any argument) and `update` whose filter weight satisfies `weights`. -/
inductive ReachableFromInit (weights : real_T → Prop) (init : RotorActuator) :
    RotorActuator → Prop where
  | initialized : ReachableFromInit weights init init
  | reset (s s1 : RotorActuator) (env : Environment) :
      ReachableFromInit weights init s → s.resetImplementation env = some s1 →
      ReachableFromInit weights init s1
  | setControlSignal (s : RotorActuator) (x : real_T) :
      ReachableFromInit weights init s →
      ReachableFromInit weights init (s.setControlSignal x)
  | update (s s1 : RotorActuator) (env : Environment) (alpha : real_T) :
      ReachableFromInit weights init s → weights alpha →
      s.update env alpha = some s1 → ReachableFromInit weights init s1

/-! ## Binary floating-point arithmetic of `setOutput` -/

/-- Rounding of a rational to the nearest integer, ties to the even one. -/
def roundHalfEven (r : ℚ) : Int :=
  if r - ⌊r⌋ < 1 / 2 then ⌊r⌋
  else if 1 / 2 < r - ⌊r⌋ then ⌊r⌋ + 1
  else if ⌊r⌋ % 2 = 0 then ⌊r⌋ else ⌊r⌋ + 1

/-- Rounding of a non-negative rational `x` to the binary floating-point format with
`p` significant bits and least exponent `emin`: the multiple of the unit in the last
place `2 ^ (e - (p - 1))` nearest to `x`, ties to even, where `e` is the binary exponent
of `x`, not below `emin` (so that the subnormal range is covered). Overflow is not
modelled. -/
def roundBinaryNonneg (p : Nat) (emin : Int) (x : ℚ) : ℚ :=
  (roundHalfEven (x / 2 ^ (max (Int.log 2 x) emin - (p - 1))) : ℚ)
    * 2 ^ (max (Int.log 2 x) emin - (p - 1))

/-- Rounding of a rational to a binary floating-point format, round to nearest, ties to
even; symmetric about zero. -/
def roundBinary (p : Nat) (emin : Int) (x : ℚ) : ℚ :=
  if 0 ≤ x then roundBinaryNonneg p emin x else -roundBinaryNonneg p emin (-x)

/-- The value a `float` (IEEE 754 binary32) holds after receiving the exact result `x`. -/
def binary32 (x : ℚ) : ℚ := roundBinary 24 (-126) x

/-- The value a `double` (IEEE 754 binary64) holds after receiving the exact result `x`. -/
def binary64 (x : ℚ) : ℚ := roundBinary 53 (-1022) x

/-- The array `float motor_speeds[51]` as stored: every entry converted to `float`. -/
def motor_speeds_binary32 : List real_T := motor_speeds.map binary32

/-- The array `float motor_thrusts[51]` as stored: every decimal literal is a `double`
constant, converted to `float` on initialization. -/
def motor_thrusts_binary32 : List real_T := motor_thrusts.map (fun c => binary32 (binary64 c))

/-- The local `converted_signal` of `setOutput` in `float` arithmetic: the product and
the sum are each rounded to binary32. -/
def converted_signal_binary32 (control_signal_filtered : real_T) : real_T :=
  binary32 (1000 + binary32 (control_signal_filtered * 1000))

/-- The local `rounded` of `setOutput` in `float` arithmetic, one rounding per operation:
`((converted_signal + 20 - 1) / 20) * 20`. -/
def rounded_binary32 (control_signal_filtered : real_T) : real_T :=
  binary32 (binary32 (binary32 (binary32
    (converted_signal_binary32 control_signal_filtered + 20) - 1) / 20) * 20)

/-- The local `closest_idx` of `setOutput` in `float` arithmetic. -/
def closest_idx_binary32 (control_signal_filtered : real_T) : Int :=
  static_cast_int (binary32 (binary32 (rounded_binary32 control_signal_filtered - 1000) / 51))

/-- The thrust `9.8*motor_thrusts[closest_idx]` as stored in the `float` field, for the
decimal `coeff` of the table: the `double` constant 9.8 times the stored `float` entry,
a `double` product, converted to `float` by the assignment. -/
def thrust_binary32 (coeff : real_T) : real_T :=
  binary32 (binary64 (binary64 9.8 * binary32 (binary64 coeff)))

/-- The static method `RotorActuator::setOutput` with the arithmetic of the compiled
code: `float` operations round to binary32, the thrust is a `double` product stored as
`float`. The filter's values are `float` values already, so that the two casts to `float`
change nothing. `setOutput` above is the same method in exact arithmetic. -/
def setOutput_binary32 (_output : Output) (_params : RotorParams)
    (control_signal_filter : FirstOrderFilter)
    (turning_direction : RotorTurningDirection) : Option Output := do
  let control_signal_input := control_signal_filter.getInput
  let control_signal_filtered := control_signal_filter.getOutput
  let idx := closest_idx_binary32 control_signal_filtered
  let speed ← arrayAt motor_speeds_binary32 idx
  let thrust := binary32 (binary64 (binary64 9.8 * (← arrayAt motor_thrusts_binary32 idx)))
  let torque_scaler := binary32 (binary32 (thrust * 12) * (turning_direction.toInt : real_T))
  pure { thrust := thrust
         torque_scaler := torque_scaler
         speed := speed
         turning_direction := turning_direction
         control_signal_filtered := control_signal_filtered
         control_signal_input := control_signal_input }

/-! ## Arithmetic of the table index -/

theorem rounded_sub_div (f : real_T) : (rounded f - 1000) / 51 = (1000 * f + 19) / 51 := by
  unfold rounded converted_signal
  ring

theorem closest_idx_of_nonneg (f : real_T) (h : 0 ≤ f) :
    closest_idx f = ⌊(1000 * f + 19) / 51⌋ := by
  unfold closest_idx static_cast_int
  rw [rounded_sub_div]
  have : (0 : real_T) ≤ (1000 * f + 19) / 51 := by positivity
  simp [this]

theorem closest_idx_nonneg (f : real_T) (h : 0 ≤ f) : 0 ≤ closest_idx f := by
  rw [closest_idx_of_nonneg f h]
  exact Int.floor_nonneg.mpr (by positivity)

theorem closest_idx_le (f : real_T) (h0 : 0 ≤ f) (h1 : f ≤ 1) : closest_idx f ≤ 19 := by
  rw [closest_idx_of_nonneg f h0]
  have : ⌊(1000 * f + 19) / 51⌋ < 20 := by
    rw [Int.floor_lt]
    rw [div_lt_iff₀ (by norm_num)]
    push_cast
    linarith
  omega

theorem closest_idx_mono (a b : real_T) (ha : 0 ≤ a) (hab : a ≤ b) :
    closest_idx a ≤ closest_idx b := by
  rw [closest_idx_of_nonneg a ha, closest_idx_of_nonneg b (ha.trans hab)]
  apply Int.floor_mono
  apply div_le_div_of_nonneg_right _ (by norm_num)
  linarith

theorem closest_idx_zero : closest_idx 0 = 0 := by
  rw [closest_idx_of_nonneg 0 le_rfl, Int.floor_eq_iff]
  norm_num

theorem motor_speeds_length : motor_speeds.length = 51 := rfl

theorem motor_thrusts_length : motor_thrusts.length = 51 := rfl

theorem arrayAt_ofNat (t : List real_T) (i : Nat) : arrayAt t (i : Int) = t[i]? := by
  simp [arrayAt]

theorem arrayAt_eq_some (t : List real_T) (i : Int) (v : real_T)
    (h : arrayAt t i = some v) : 0 ≤ i ∧ i.toNat < t.length ∧ t[i.toNat]? = some v := by
  unfold arrayAt at h
  split at h
  · rename_i h0
    refine ⟨h0, ?_, h⟩
    exact (List.getElem?_eq_some.mp h).1
  · simp at h

/-- The output `setOutput` writes, in terms of the two table reads. -/
theorem setOutput_eq (o : Output) (p : RotorParams) (flt : FirstOrderFilter)
    (d : RotorTurningDirection) (i : Nat) (speed coeff : real_T)
    (hi : closest_idx flt.output = i) (hs : motor_speeds[i]? = some speed)
    (ht : motor_thrusts[i]? = some coeff) :
    setOutput o p flt d = some
      { thrust := 9.8 * coeff
        torque_scaler := (9.8 * coeff * 12) * (d.toInt : real_T)
        speed := speed
        turning_direction := d
        control_signal_filtered := flt.output
        control_signal_input := flt.input } := by
  simp [setOutput, FirstOrderFilter.getInput, FirstOrderFilter.getOutput, hi, arrayAt_ofNat,
    hs, ht]

/-- The output `setOutput` writes for a filter whose output is zero. -/
theorem setOutput_zero (o : Output) (p : RotorParams) (flt : FirstOrderFilter)
    (d : RotorTurningDirection) (h : flt.output = 0) :
    setOutput o p flt d = some
      { thrust := 0, torque_scaler := 0, speed := 0, turning_direction := d,
        control_signal_filtered := 0, control_signal_input := flt.input } := by
  have hi : closest_idx flt.output = (0 : Nat) := by rw [h]; exact closest_idx_zero
  rw [setOutput_eq o p flt d 0 0 0 hi rfl rfl, h]
  simp

/-! ## Lifecycle lemmas -/

theorem updateEnvironmentalFactors_bound (s : RotorActuator) (env : Environment)
    (h : s.environment_bound = true) :
    s.updateEnvironmentalFactors env =
      some { s with air_density_ratio_ := env.air_density / s.air_density_sea_level_ } := by
  simp [RotorActuator.updateEnvironmentalFactors, h]

/-- What `resetImplementation` returns for a bound environment. -/
theorem resetImplementation_eq (s : RotorActuator) (env : Environment)
    (h : s.environment_bound = true) :
    s.resetImplementation env = some
      { s with
        air_density_ratio_ := env.air_density / s.air_density_sea_level_
        control_signal_filter_ := ⟨s.control_signal_filter_.timeConstant, 0, 0⟩
        output_ := ⟨0, 0, 0, s.turning_direction_, 0, 0⟩ } := by
  simp [RotorActuator.resetImplementation, RotorActuator.PhysicsBodyVertex_resetImplementation,
    updateEnvironmentalFactors_bound, h, FirstOrderFilter.reset, setOutput_zero]

/-- What `update` returns when the environment is bound and `setOutput` has a value. -/
theorem update_eq (s : RotorActuator) (env : Environment) (alpha : real_T) (out : Output)
    (h : s.environment_bound = true)
    (ho : setOutput s.output_ s.params_ s.control_signal_filter_ s.turning_direction_
      = some out) :
    s.update env alpha = some
      { s with
        air_density_ratio_ := env.air_density / s.air_density_sea_level_
        current_wrench :=
          { force := (s.normal.scale s.output_.thrust).scale
              (env.air_density / s.air_density_sea_level_)
            torque := (s.normal.scale s.output_.torque_scaler).scale
              (env.air_density / s.air_density_sea_level_) }
        output_ := out
        control_signal_filter_ := s.control_signal_filter_.update alpha } := by
  simp [RotorActuator.update, RotorActuator.PhysicsBodyVertex_update,
    updateEnvironmentalFactors_bound, h, ho, RotorActuator.setWrench,
    PhysicsBodyVertex.getNormal]

/-- A successful `update` had a bound environment and a defined `setOutput`, and its
result is the one of `update_eq`. -/
theorem update_some (s s1 : RotorActuator) (env : Environment) (alpha : real_T)
    (h : s.update env alpha = some s1) :
    s.environment_bound = true ∧
    setOutput s.output_ s.params_ s.control_signal_filter_ s.turning_direction_
      = some s1.output_ ∧
    s1.control_signal_filter_ = s.control_signal_filter_.update alpha ∧
    s1.turning_direction_ = s.turning_direction_ ∧
    s1.environment_bound = true := by
  cases hb : s.environment_bound with
  | false => simp [RotorActuator.update, RotorActuator.updateEnvironmentalFactors, hb] at h
  | true =>
    cases ho : setOutput s.output_ s.params_ s.control_signal_filter_ s.turning_direction_ with
    | none =>
      simp [RotorActuator.update, RotorActuator.PhysicsBodyVertex_update,
        updateEnvironmentalFactors_bound, hb, ho] at h
    | some out =>
      rw [update_eq s env alpha out hb ho] at h
      cases h
      simp [hb]

/-- Whenever `setOutput` has a value, that value is built from the two table reads at
the index computed from the filter output. -/
theorem setOutput_some (o out : Output) (p : RotorParams) (flt : FirstOrderFilter)
    (d : RotorTurningDirection) (h : setOutput o p flt d = some out) :
    ∃ speed coeff : real_T,
      arrayAt motor_speeds (closest_idx flt.output) = some speed ∧
      arrayAt motor_thrusts (closest_idx flt.output) = some coeff ∧
      out = { thrust := 9.8 * coeff
              torque_scaler := (9.8 * coeff * 12) * (d.toInt : real_T)
              speed := speed
              turning_direction := d
              control_signal_filtered := flt.output
              control_signal_input := flt.input } := by
  simp only [setOutput, Option.bind_eq_bind, Option.pure_def, Option.bind_eq_some,
    FirstOrderFilter.getOutput, FirstOrderFilter.getInput] at h
  obtain ⟨speed, hs, coeff, ht, ho⟩ := h
  exact ⟨speed, coeff, hs, ht, (Option.some.inj ho).symm⟩

/-- For a filtered control in `[0, 1]` the index is a natural number of at most 19, both
table reads are defined and `setOutput` returns the record built from them. -/
theorem setOutput_in_range (o : Output) (p : RotorParams) (flt : FirstOrderFilter)
    (d : RotorTurningDirection) (h0 : 0 ≤ flt.output) (h1 : flt.output ≤ 1) :
    ∃ (i : Nat) (speed coeff : real_T), i ≤ 19 ∧ closest_idx flt.output = i ∧
      motor_speeds[i]? = some speed ∧ motor_thrusts[i]? = some coeff ∧
      setOutput o p flt d = some
        { thrust := 9.8 * coeff
          torque_scaler := (9.8 * coeff * 12) * (d.toInt : real_T)
          speed := speed
          turning_direction := d
          control_signal_filtered := flt.output
          control_signal_input := flt.input } := by
  have hn := closest_idx_nonneg flt.output h0
  have hl := closest_idx_le flt.output h0 h1
  obtain ⟨i, hi⟩ := Int.eq_ofNat_of_zero_le hn
  have hi19 : i ≤ 19 := by omega
  have hs : i < motor_speeds.length := by rw [motor_speeds_length]; omega
  have ht : i < motor_thrusts.length := by rw [motor_thrusts_length]; omega
  exact ⟨i, motor_speeds[i], motor_thrusts[i], hi19, hi, List.getElem?_eq_getElem hs,
    List.getElem?_eq_getElem ht,
    setOutput_eq o p flt d i _ _ hi (List.getElem?_eq_getElem hs) (List.getElem?_eq_getElem ht)⟩

/-- One `update` of an actuator whose filter is at zero on both sides leaves it there
and records the zero output. -/
theorem update_at_zero (s : RotorActuator) (env : Environment) (alpha : real_T)
    (hb : s.environment_bound = true) (hi : s.control_signal_filter_.input = 0)
    (ho : s.control_signal_filter_.output = 0) :
    ∃ s1, s.update env alpha = some s1 ∧ s1.environment_bound = true ∧
      s1.control_signal_filter_.input = 0 ∧ s1.control_signal_filter_.output = 0 ∧
      s1.output_ = ⟨0, 0, 0, s.turning_direction_, 0, 0⟩ ∧
      s1.turning_direction_ = s.turning_direction_ := by
  have hout := setOutput_zero s.output_ s.params_ s.control_signal_filter_
    s.turning_direction_ ho
  rw [hi] at hout
  refine ⟨_, update_eq s env alpha _ hb hout, ?_, ?_, ?_, ?_, ?_⟩
  · simpa using hb
  · simp [FirstOrderFilter.update, hi]
  · simp [FirstOrderFilter.update, hi, ho]
  · rfl
  · rfl

/-- Any number of ticks with control signal 0 leave a resting actuator at rest: bound
environment, filter at zero on both sides and the zero output on record. -/
theorem run_at_zero (ticks : List Tick) :
    ∀ s : RotorActuator, (∀ t ∈ ticks, t.control = 0) → s.environment_bound = true →
      s.control_signal_filter_.input = 0 → s.control_signal_filter_.output = 0 →
      ∃ s1, s.run ticks = some s1 ∧ s1.environment_bound = true ∧
        s1.control_signal_filter_.input = 0 ∧ s1.control_signal_filter_.output = 0 ∧
        s1.turning_direction_ = s.turning_direction_ := by
  induction ticks with
  | nil =>
    intro s _ hb hi ho
    exact ⟨s, rfl, hb, hi, ho, rfl⟩
  | cons t ts ih =>
    intro s hc hb hi ho
    have ht : t.control = 0 := hc t (List.mem_cons_self t ts)
    obtain ⟨s2, hstep, hb2, hi2, ho2, _, hd2⟩ :=
      update_at_zero (s.setControlSignal t.control) t.env t.alpha hb
        (by simp [RotorActuator.setControlSignal, FirstOrderFilter.setInput, ht, Utils.clip])
        ho
    obtain ⟨s1, hrun, hb1, hi1, ho1, hd1⟩ :=
      ih s2 (fun u hu => hc u (List.mem_cons_of_mem t hu)) hb2 hi2 ho2
    refine ⟨s1, ?_, hb1, hi1, ho1, ?_⟩
    · simp only [RotorActuator.run, hstep, Option.bind_eq_bind, Option.some_bind]
      exact hrun
    · rw [hd1, hd2]
      rfl

/-- A successful `update` in full: the ratio is the freshly sampled one, the wrench is
built from the output that was on record before the call, and the filter is advanced. -/
theorem update_some_eq (s s1 : RotorActuator) (env : Environment) (alpha : real_T)
    (h : s.update env alpha = some s1) :
    s1 = { s with
      air_density_ratio_ := env.air_density / s.air_density_sea_level_
      current_wrench :=
        { force := (s.normal.scale s.output_.thrust).scale
            (env.air_density / s.air_density_sea_level_)
          torque := (s.normal.scale s.output_.torque_scaler).scale
            (env.air_density / s.air_density_sea_level_) }
      output_ := s1.output_
      control_signal_filter_ := s.control_signal_filter_.update alpha } := by
  obtain ⟨hb, ho, _⟩ := update_some s s1 env alpha h
  rw [update_eq s env alpha s1.output_ hb ho] at h
  exact (Option.some.inj h).symm

theorem closest_idx_one : closest_idx 1 = 19 := by
  rw [closest_idx_of_nonneg 1 zero_le_one, Int.floor_eq_iff]
  norm_num

/-- The output `setOutput` writes for a filter whose output is one. -/
theorem setOutput_one (o : Output) (p : RotorParams) (flt : FirstOrderFilter)
    (d : RotorTurningDirection) (h : flt.output = 1) :
    setOutput o p flt d = some
      { thrust := 9.8 * 0.156054104097401
        torque_scaler := (9.8 * 0.156054104097401 * 12) * (d.toInt : real_T)
        speed := 11580
        turning_direction := d
        control_signal_filtered := 1
        control_signal_input := flt.input } := by
  have hi : closest_idx flt.output = (19 : Nat) := by rw [h]; exact closest_idx_one
  rw [setOutput_eq o p flt d 19 11580 0.156054104097401 hi rfl rfl, h]

/-! ## The claims -/

/-- C1: for every control signal `x`, `setControlSignal x` stores the clamp of `x` to
`[0, 1]` as the pending raw input of the filter and changes no other field: the stored
value is 0 for `x < 0`, 1 for `x > 1` and `x` itself for `0 ≤ x ≤ 1`. The call is a
total function of the state, so it never fails. -/
theorem C1_setControlSignal_stores_clamp (s : RotorActuator) (x : real_T) :
    s.setControlSignal x =
      { s with control_signal_filter_ :=
          { s.control_signal_filter_ with input := max 0 (min x 1) } } ∧
    (x < 0 → (s.setControlSignal x).control_signal_filter_.getInput = 0) ∧
    (1 < x → (s.setControlSignal x).control_signal_filter_.getInput = 1) ∧
    (0 ≤ x → x ≤ 1 → (s.setControlSignal x).control_signal_filter_.getInput = x) := by
  have key : Utils.clip x 0 1 = max 0 (min x 1) := by
    unfold Utils.clip
    split_ifs with h1 h2
    · rw [min_eq_left (by linarith), max_eq_left h1.le]
    · rw [min_eq_right h2.le, max_eq_right (by norm_num)]
    · rw [min_eq_left (not_lt.mp h2), max_eq_right (not_lt.mp h1)]
  refine ⟨?_, ?_, ?_, ?_⟩
  · simp [RotorActuator.setControlSignal, FirstOrderFilter.setInput, key]
  · intro h
    simp [RotorActuator.setControlSignal, FirstOrderFilter.setInput,
      FirstOrderFilter.getInput, Utils.clip, h]
  · intro h
    have : ¬ x < 0 := by linarith
    simp [RotorActuator.setControlSignal, FirstOrderFilter.setInput,
      FirstOrderFilter.getInput, Utils.clip, h, this]
  · intro h0 h1
    simp [RotorActuator.setControlSignal, FirstOrderFilter.setInput,
      FirstOrderFilter.getInput, Utils.clip, not_lt.mpr h0, not_lt.mpr h1]

/-- C1 at the signals -3, 5, 1/2, 0 and 1 of the example actuator. -/
theorem C1_setControlSignal_stores_clamp_witness :
    (example_actuator.setControlSignal (-3)).control_signal_filter_.getInput = 0 ∧
    (example_actuator.setControlSignal 5).control_signal_filter_.getInput = 1 ∧
    (example_actuator.setControlSignal (1 / 2)).control_signal_filter_.getInput = 1 / 2 ∧
    (example_actuator.setControlSignal 0).control_signal_filter_.getInput = 0 ∧
    (example_actuator.setControlSignal 1).control_signal_filter_.getInput = 1 :=
  ⟨(C1_setControlSignal_stores_clamp example_actuator (-3)).2.1 (by norm_num),
   (C1_setControlSignal_stores_clamp example_actuator 5).2.2.1 (by norm_num),
   (C1_setControlSignal_stores_clamp example_actuator (1 / 2)).2.2.2 (by norm_num)
     (by norm_num),
   (C1_setControlSignal_stores_clamp example_actuator 0).2.2.2 (by norm_num) (by norm_num),
   (C1_setControlSignal_stores_clamp example_actuator 1).2.2.2 (by norm_num) (by norm_num)⟩

/-- C2: for every actuator state with a bound environment, whatever the filter, the
output on record and the other fields hold from earlier calls, `resetImplementation`
returns a state whose output has filtered control 0, raw control 0 and speed, thrust
and torque scalar taken from entry 0 of the tables, all 0; a freshly initialized
actuator of the same turning direction that is reset has the same output. -/
theorem C2_reset_output (s : RotorActuator) (env : Environment)
    (h : s.environment_bound = true) :
    ∃ s1, s.resetImplementation env = some s1 ∧
      s1.output_.control_signal_filtered = 0 ∧ s1.output_.control_signal_input = 0 ∧
      motor_speeds[0]? = some s1.output_.speed ∧ s1.output_.speed = 0 ∧
      (∃ coeff, motor_thrusts[0]? = some coeff ∧ s1.output_.thrust = 9.8 * coeff) ∧
      s1.output_.thrust = 0 ∧ s1.output_.torque_scaler = 0 ∧
      s1.output_.turning_direction = s.turning_direction_ ∧
      ∀ (r : RotorActuator) (sea_level : real_T) (position normal : Vector3r)
        (params : RotorParams) (id : Nat) (env0 : Environment),
        ∃ t1, RotorActuator.resetImplementation
            ( RotorActuator.initialize r sea_level position normal s.turning_direction_
              params true id) env0 = some t1 ∧ t1.output_ = s1.output_ := by
  refine ⟨_, resetImplementation_eq s env h, rfl, rfl, rfl, rfl, ⟨0, rfl, by simp⟩, rfl, rfl,
    rfl, ?_⟩
  intro r sea_level position normal params id env0
  exact ⟨_, resetImplementation_eq _ env0 rfl, rfl⟩

/-- C2 at the example actuator with a filter and an output left by earlier ticks. -/
theorem C2_reset_output_witness :
    ∃ s1, ({ example_actuator with
        control_signal_filter_ := ⟨0, 1, 3 / 4⟩
        output_ := ⟨5, 60, 9000, .RotorTurningDirectionCW, 3 / 4, 1⟩ }
        : RotorActuator).resetImplementation ⟨1⟩ = some s1 ∧
      s1.output_.control_signal_filtered = 0 ∧ s1.output_.control_signal_input = 0 ∧
      s1.output_.speed = 0 ∧ s1.output_.thrust = 0 ∧ s1.output_.torque_scaler = 0 := by
  obtain ⟨s1, h1, h2, h3, _, h5, _, h7, h8, _⟩ := C2_reset_output
    ({ example_actuator with
        control_signal_filter_ := ⟨0, 1, 3 / 4⟩
        output_ := ⟨5, 60, 9000, .RotorTurningDirectionCW, 3 / 4, 1⟩ } : RotorActuator)
    ⟨1⟩ rfl
  exact ⟨s1, h1, h2, h3, h5, h7, h8⟩

/-- C3: the output `update` records is the one `setOutput` computes from the filter as
it was before the update advanced it, and `update` does return for a bound environment
and a filter output in `[0, 1]`. In particular after a reset and any number of ticks
with control signal 0, `setControlSignal 1` followed by one `update` records filtered
control 0 with raw control 1, and speed, thrust and torque scalar of the reset output. -/
theorem C3_step_order :
    (∀ (s s1 : RotorActuator) (env : Environment) (alpha : real_T),
      s.update env alpha = some s1 →
        setOutput s.output_ s.params_ s.control_signal_filter_ s.turning_direction_
          = some s1.output_ ∧
        s1.output_.control_signal_filtered = s.control_signal_filter_.getOutput ∧
        s1.control_signal_filter_ = s.control_signal_filter_.update alpha) ∧
    (∀ (s : RotorActuator) (env : Environment) (alpha : real_T),
      s.environment_bound = true → 0 ≤ s.control_signal_filter_.getOutput →
        s.control_signal_filter_.getOutput ≤ 1 → ∃ s1, s.update env alpha = some s1) ∧
    (∀ (s : RotorActuator) (env : Environment) (ticks : List Tick) (env1 : Environment)
      (alpha1 : real_T),
      s.environment_bound = true → (∀ t ∈ ticks, t.control = 0) →
        ∃ r s1 s2, s.resetImplementation env = some r ∧ r.run ticks = some s1 ∧
          (s1.setControlSignal 1).update env1 alpha1 = some s2 ∧
          s2.output_.control_signal_filtered = 0 ∧ s2.output_.control_signal_input = 1 ∧
          s2.output_.speed = r.output_.speed ∧ s2.output_.thrust = r.output_.thrust ∧
          s2.output_.torque_scaler = r.output_.torque_scaler) := by
  refine ⟨?_, ?_, ?_⟩
  · intro s s1 env alpha h
    obtain ⟨_, ho, hf, _, _⟩ := update_some s s1 env alpha h
    refine ⟨ho, ?_, hf⟩
    obtain ⟨_, _, _, _, hout⟩ := setOutput_some _ _ _ _ _ ho
    rw [hout]
    rfl
  · intro s env alpha hb h0 h1
    obtain ⟨i, speed, coeff, _, _, _, _, ho⟩ := setOutput_in_range s.output_ s.params_
      s.control_signal_filter_ s.turning_direction_ h0 h1
    exact ⟨_, update_eq s env alpha _ hb ho⟩
  · intro s env ticks env1 alpha1 hb hc
    obtain ⟨s1, hrun, hb1, _, ho1, _⟩ := run_at_zero ticks _ hc
      (show ({ s with
        air_density_ratio_ := env.air_density / s.air_density_sea_level_
        control_signal_filter_ := ⟨s.control_signal_filter_.timeConstant, 0, 0⟩
        output_ := ⟨0, 0, 0, s.turning_direction_, 0, 0⟩ } : RotorActuator).environment_bound
          = true from hb) rfl rfl
    have hout := setOutput_zero (s1.setControlSignal 1).output_ (s1.setControlSignal 1).params_
      (s1.setControlSignal 1).control_signal_filter_ (s1.setControlSignal 1).turning_direction_
      ho1
    exact ⟨_, s1, _, resetImplementation_eq s env hb, hrun,
      update_eq (s1.setControlSignal 1) env1 alpha1 _ hb1 hout, rfl,
      by simp [RotorActuator.setControlSignal, FirstOrderFilter.setInput, Utils.clip],
      rfl, rfl, rfl⟩

/-- C3 at the example actuator: reset, three ticks at control signal 0, then a step to
control signal 1 with a filter of time constant 0. -/
theorem C3_step_order_witness :
    ∃ r s1 s2, example_actuator.resetImplementation ⟨1.225⟩ = some r ∧
      r.run [⟨0, ⟨1.2⟩, 1 / 2⟩, ⟨0, ⟨1.1⟩, 1 / 3⟩, ⟨0, ⟨1⟩, 0⟩] = some s1 ∧
      (s1.setControlSignal 1).update ⟨1⟩ 0 = some s2 ∧
      s2.output_.control_signal_filtered = 0 ∧ s2.output_.control_signal_input = 1 ∧
      s2.output_.speed = r.output_.speed ∧ s2.output_.thrust = r.output_.thrust ∧
      s2.output_.torque_scaler = r.output_.torque_scaler :=
  C3_step_order.2.2 example_actuator ⟨1.225⟩
    [⟨0, ⟨1.2⟩, 1 / 2⟩, ⟨0, ⟨1.1⟩, 1 / 3⟩, ⟨0, ⟨1⟩, 0⟩] ⟨1⟩ 0 rfl (by simp)

/-- The run that leads to `example_after_step`. -/
theorem example_after_step_run :
    ∃ r, example_actuator.resetImplementation ⟨1.225⟩ = some r ∧
      (r.setControlSignal 1).update ⟨1.225⟩ 0 = some example_after_step := by
  refine ⟨_, resetImplementation_eq example_actuator ⟨1.225⟩ rfl, ?_⟩
  rw [update_eq _ _ _ ⟨0, 0, 0, .RotorTurningDirectionCW, 0, 1⟩ rfl]
  · simp [example_after_step, example_actuator, RotorActuator.initialize,
      RotorActuator.setControlSignal, FirstOrderFilter.setInput, FirstOrderFilter.update,
      Utils.clip, Vector3r.scale, PhysicsBodyVertex.initialize, RotorActuator.unset,
      FirstOrderFilter.initialize]
    norm_num
  · rw [setOutput_zero _ _ _ _ rfl]
    simp [RotorActuator.setControlSignal, FirstOrderFilter.setInput, Utils.clip]
    rfl

/-- `example_after_step` is reachable after a reset. -/
theorem example_after_step_reachable : Reachable example_after_step := by
  obtain ⟨r, hr, hu⟩ := example_after_step_run
  exact Reachable.update _ _ _ _ (Reachable.setControlSignal _ _ (Reachable.reset _ _ _ hr)) hu

/-- C4 as stated fails: it is not the case that in every state reachable after reset the
wrench produced during an `update` is built from the thrust and torque scalar that
`setOutput` yields for the filter output at the start of that same update. After a
reset and one tick with control signal 1 and weight 0, the filter output is 1 (thrust
9.8 * 0.156054104097401), yet the next update reports the zero wrench. -/
theorem C4_counterexample :
    ¬ ∀ (s s1 : RotorActuator) (env : Environment) (alpha : real_T),
      Reachable s → s.update env alpha = some s1 →
        ∃ out, setOutput s.output_ s.params_ s.control_signal_filter_ s.turning_direction_
            = some out ∧
          s1.current_wrench =
            { force := (s.getNormal.scale out.thrust).scale s1.air_density_ratio_
              torque := (s.getNormal.scale out.torque_scaler).scale s1.air_density_ratio_ } := by
  intro H
  have hout := setOutput_one example_after_step.output_ example_after_step.params_
    example_after_step.control_signal_filter_ example_after_step.turning_direction_ rfl
  obtain ⟨out, ho, hw⟩ := H example_after_step _ ⟨1.225⟩ 0 example_after_step_reachable
    (update_eq example_after_step ⟨1.225⟩ 0 _ rfl hout)
  rw [hout] at ho
  rw [← Option.some.inj ho] at hw
  have hz := congrArg (fun w => w.force.z) hw
  simp [example_after_step, example_actuator, RotorActuator.initialize, Vector3r.scale,
    PhysicsBodyVertex.initialize, PhysicsBodyVertex.getNormal, RotorActuator.unset] at hz
  norm_num at hz

/-- C4, amended: within an `update` the wrench is reported before the thrust and torque
are recomputed. The wrench produced during an update uses the density ratio sampled in
that update and the thrust and torque scalar of the output on record at the start of
the update, as the preceding reset or update stored it; `update` returns for a bound
environment and a filter output in `[0, 1]`. Hence in two consecutive updates the
wrench of the second is built from the thrust and torque scalar that `setOutput`
yielded for the filter output at the start of the first. -/
theorem C4_wrench_uses_recorded_output :
    (∀ (s s1 : RotorActuator) (env : Environment) (alpha : real_T),
      s.update env alpha = some s1 →
        s1.air_density_ratio_ = env.air_density / s.air_density_sea_level_ ∧
        s1.current_wrench =
          { force := (s.getNormal.scale s.output_.thrust).scale s1.air_density_ratio_
            torque := (s.getNormal.scale s.output_.torque_scaler).scale
              s1.air_density_ratio_ }) ∧
    (∀ (s : RotorActuator) (env : Environment) (alpha : real_T),
      s.environment_bound = true → 0 ≤ s.control_signal_filter_.getOutput →
        s.control_signal_filter_.getOutput ≤ 1 → ∃ s1, s.update env alpha = some s1) ∧
    (∀ (s s1 s2 : RotorActuator) (env1 env2 : Environment) (alpha1 alpha2 x : real_T),
      s.update env1 alpha1 = some s1 → (s1.setControlSignal x).update env2 alpha2 = some s2 →
        ∃ out, setOutput s.output_ s.params_ s.control_signal_filter_ s.turning_direction_
            = some out ∧
          s2.current_wrench =
            { force := (s.getNormal.scale out.thrust).scale s2.air_density_ratio_
              torque := (s.getNormal.scale out.torque_scaler).scale
                s2.air_density_ratio_ }) := by
  refine ⟨?_, ?_, ?_⟩
  · intro s s1 env alpha h
    have h1 := update_some_eq s s1 env alpha h
    constructor
    · rw [h1]
    · rw [h1]
      rfl
  · intro s env alpha hb h0 h1
    obtain ⟨i, speed, coeff, _, _, _, _, ho⟩ := setOutput_in_range s.output_ s.params_
      s.control_signal_filter_ s.turning_direction_ h0 h1
    exact ⟨_, update_eq s env alpha _ hb ho⟩
  · intro s s1 s2 env1 env2 alpha1 alpha2 x h1 h2
    obtain ⟨_, ho, _⟩ := update_some s s1 env1 alpha1 h1
    have e1 := update_some_eq s s1 env1 alpha1 h1
    have e2 := update_some_eq _ s2 env2 alpha2 h2
    refine ⟨s1.output_, ho, ?_⟩
    rw [e2]
    have hn : s1.normal = s.normal := by rw [e1]
    simp only [RotorActuator.setControlSignal, PhysicsBodyVertex.getNormal, hn]

/-- C4, amended, at `example_after_step`: the filter output is 1 and the update reports
the zero wrench of the output on record. -/
theorem C4_wrench_uses_recorded_output_witness :
    ∃ s1, example_after_step.update ⟨1.225⟩ 0 = some s1 ∧
      s1.current_wrench = ⟨⟨0, 0, 0⟩, ⟨0, 0, 0⟩⟩ := by
  obtain ⟨s1, h⟩ := C4_wrench_uses_recorded_output.2.1 example_after_step ⟨1.225⟩ 0 rfl
    (by simp [example_after_step, FirstOrderFilter.getOutput])
    (by simp [example_after_step, FirstOrderFilter.getOutput])
  refine ⟨s1, h, ?_⟩
  rw [(C4_wrench_uses_recorded_output.1 example_after_step s1 ⟨1.225⟩ 0 h).2]
  simp [example_after_step, example_actuator, RotorActuator.initialize, Vector3r.scale,
    PhysicsBodyVertex.initialize, PhysicsBodyVertex.getNormal, RotorActuator.unset]

/-- A successful `resetImplementation` had a bound environment, and its result is the
one of `resetImplementation_eq`. -/
theorem resetImplementation_some (s s1 : RotorActuator) (env : Environment)
    (h : s.resetImplementation env = some s1) :
    s.environment_bound = true ∧
    s1 = { s with
      air_density_ratio_ := env.air_density / s.air_density_sea_level_
      control_signal_filter_ := ⟨s.control_signal_filter_.timeConstant, 0, 0⟩
      output_ := ⟨0, 0, 0, s.turning_direction_, 0, 0⟩ } := by
  have hb : s.environment_bound = true := by
    by_contra hb
    simp [RotorActuator.resetImplementation, RotorActuator.updateEnvironmentalFactors,
      RotorActuator.PhysicsBodyVertex_resetImplementation, hb] at h
  rw [resetImplementation_eq s env hb] at h
  exact ⟨hb, (Option.some.inj h).symm⟩

/-- In every state reachable after a reset the output on record is a value of
`setOutput` for the turning direction of the actuator. -/
theorem reachable_output (s : RotorActuator) (h : Reachable s) :
    ∃ (o : Output) (p : RotorParams) (flt : FirstOrderFilter),
      setOutput o p flt s.turning_direction_ = some s.output_ := by
  induction h with
  | reset s s1 env hr =>
    obtain ⟨_, e⟩ := resetImplementation_some s s1 env hr
    refine ⟨s.output_, s.params_, ⟨0, 0, 0⟩, ?_⟩
    rw [setOutput_zero _ _ _ _ rfl, e]
  | setControlSignal s x _ ih => exact ih
  | update s s1 env alpha _ hu _ =>
    obtain ⟨_, ho, _, hd, _⟩ := update_some s s1 env alpha hu
    exact ⟨_, _, _, hd ▸ ho⟩

/-- C5: for every actuator state, with normal `n`, thrust `t` and torque scalar `q` on
record and density ratio `r`, `setWrench` writes the force `n * t * r` and the torque
`n * q * r`, component by component. The base update that calls it stores that wrench
and changes no other field: filter, output on record, density ratio, sea-level density,
direction, parameters, environment pointer, id and geometry stay as they were. -/
theorem C5_setWrench (s : RotorActuator) (w : Wrench) :
    (s.setWrench w).force =
      ⟨s.getNormal.x * s.output_.thrust * s.air_density_ratio_,
       s.getNormal.y * s.output_.thrust * s.air_density_ratio_,
       s.getNormal.z * s.output_.thrust * s.air_density_ratio_⟩ ∧
    (s.setWrench w).torque =
      ⟨s.getNormal.x * s.output_.torque_scaler * s.air_density_ratio_,
       s.getNormal.y * s.output_.torque_scaler * s.air_density_ratio_,
       s.getNormal.z * s.output_.torque_scaler * s.air_density_ratio_⟩ ∧
    s.PhysicsBodyVertex_update.current_wrench = s.setWrench s.current_wrench ∧
    s.PhysicsBodyVertex_update.control_signal_filter_ = s.control_signal_filter_ ∧
    s.PhysicsBodyVertex_update.output_ = s.output_ ∧
    s.PhysicsBodyVertex_update.air_density_ratio_ = s.air_density_ratio_ ∧
    s.PhysicsBodyVertex_update.air_density_sea_level_ = s.air_density_sea_level_ ∧
    s.PhysicsBodyVertex_update.turning_direction_ = s.turning_direction_ ∧
    s.PhysicsBodyVertex_update.params_ = s.params_ ∧
    s.PhysicsBodyVertex_update.environment_bound = s.environment_bound ∧
    s.PhysicsBodyVertex_update.id_ = s.id_ ∧
    s.PhysicsBodyVertex_update.normal = s.normal ∧
    s.PhysicsBodyVertex_update.position = s.position :=
  ⟨rfl, rfl, rfl, rfl, rfl, rfl, rfl, rfl, rfl, rfl, rfl, rfl, rfl⟩

/-- C6: for a fixed normal, thrust and torque scalar, the wrench computed with twice
the density ratio has twice the force and twice the torque vector, and more generally
the wrench computed with `k` times the ratio has `k` times the force and torque. -/
theorem C6_ratio_scaling_linear (s : RotorActuator) (w : Wrench) (k : real_T) :
    (({ s with air_density_ratio_ := 2 * s.air_density_ratio_ } : RotorActuator).setWrench
        w).force = (s.setWrench w).force.scale 2 ∧
    (({ s with air_density_ratio_ := 2 * s.air_density_ratio_ } : RotorActuator).setWrench
        w).torque = (s.setWrench w).torque.scale 2 ∧
    (({ s with air_density_ratio_ := k * s.air_density_ratio_ } : RotorActuator).setWrench
        w).force = (s.setWrench w).force.scale k ∧
    (({ s with air_density_ratio_ := k * s.air_density_ratio_ } : RotorActuator).setWrench
        w).torque = (s.setWrench w).torque.scale k := by
  refine ⟨?_, ?_, ?_, ?_⟩ <;>
    simp only [RotorActuator.setWrench, PhysicsBodyVertex.getNormal, Vector3r.scale,
      Vector3r.mk.injEq] <;>
    refine ⟨?_, ?_, ?_⟩ <;> ring

/-- C7: every output that `setOutput` computes satisfies torque scalar = thrust * 12 *
sign with the thrust of that same output, where sign is +1 for clockwise and -1 for
counter-clockwise, and `setOutput` does compute an output for every filter output in
`[0, 1]`. Hence for the same filtered control the clockwise torque scalar is the
negation of the counter-clockwise one at equal thrust. In every state reachable after
reset the output on record is, as a whole, the value of one `setOutput` call, so its
thrust and torque scalar come from the same step and satisfy the relation. -/
theorem C7_torque_from_thrust :
    (∀ (o out : Output) (p : RotorParams) (flt : FirstOrderFilter)
      (d : RotorTurningDirection), setOutput o p flt d = some out →
        out.torque_scaler = out.thrust * 12 * (d.toInt : real_T)) ∧
    RotorTurningDirection.RotorTurningDirectionCW.toInt = 1 ∧
    RotorTurningDirection.RotorTurningDirectionCCW.toInt = -1 ∧
    (∀ (o : Output) (p : RotorParams) (flt : FirstOrderFilter) (d : RotorTurningDirection),
      0 ≤ flt.getOutput → flt.getOutput ≤ 1 → ∃ out, setOutput o p flt d = some out) ∧
    (∀ (o1 o2 a b : Output) (p1 p2 : RotorParams) (f1 f2 : FirstOrderFilter),
      f1.getOutput = f2.getOutput →
      setOutput o1 p1 f1 .RotorTurningDirectionCW = some a →
      setOutput o2 p2 f2 .RotorTurningDirectionCCW = some b →
        a.thrust = b.thrust ∧ a.torque_scaler = -b.torque_scaler) ∧
    (∀ s : RotorActuator, Reachable s →
      (∃ (o : Output) (p : RotorParams) (flt : FirstOrderFilter),
        setOutput o p flt s.turning_direction_ = some s.output_) ∧
      s.output_.torque_scaler
        = s.output_.thrust * 12 * (s.turning_direction_.toInt : real_T)) := by
  have key : ∀ (o out : Output) (p : RotorParams) (flt : FirstOrderFilter)
      (d : RotorTurningDirection), setOutput o p flt d = some out →
        out.torque_scaler = out.thrust * 12 * (d.toInt : real_T) := by
    intro o out p flt d h
    obtain ⟨speed, coeff, _, _, e⟩ := setOutput_some o out p flt d h
    rw [e]
  refine ⟨key, rfl, rfl, ?_, ?_, ?_⟩
  · intro o p flt d h0 h1
    obtain ⟨i, speed, coeff, _, _, _, _, ho⟩ := setOutput_in_range o p flt d h0 h1
    exact ⟨_, ho⟩
  · intro o1 o2 a b p1 p2 f1 f2 hf ha hb
    obtain ⟨sa, ca, _, hta, ea⟩ := setOutput_some _ _ _ _ _ ha
    obtain ⟨sb, cb, _, htb, eb⟩ := setOutput_some _ _ _ _ _ hb
    have hf2 : f1.output = f2.output := hf
    rw [hf2, htb] at hta
    have hc : cb = ca := Option.some.inj hta
    rw [ea, eb, hc]
    simp [RotorTurningDirection.toInt]
  · intro s hs
    obtain ⟨o, p, flt, h⟩ := reachable_output s hs
    exact ⟨⟨o, p, flt, h⟩, key o _ p flt _ h⟩

/-- C7 at a counter-clockwise rotor with filter output 1/2. -/
theorem C7_torque_from_thrust_witness :
    ∃ out, setOutput example_actuator.output_ example_actuator.params_ ⟨0, 1, 1 / 2⟩
        .RotorTurningDirectionCCW = some out ∧
      out.torque_scaler = out.thrust * 12 * (-1 : Int) := by
  obtain ⟨out, h⟩ := C7_torque_from_thrust.2.2.2.1 example_actuator.output_
    example_actuator.params_ ⟨0, 1, 1 / 2⟩ .RotorTurningDirectionCCW
    (by simp [FirstOrderFilter.getOutput]) (by norm_num [FirstOrderFilter.getOutput])
  exact ⟨out, h, C7_torque_from_thrust.1 _ _ _ _ _ h⟩

/-- The speeds of the levels 0..19 do not decrease. -/
theorem motor_speeds_mono (i j : Nat) (hij : i ≤ j) (hj : j ≤ 19) :
    motor_speeds.getD i 0 ≤ motor_speeds.getD j 0 := by
  have step : ∀ n, motor_speeds.getD (min n 19) 0 ≤ motor_speeds.getD (min (n + 1) 19) 0 := by
    intro n
    rcases Nat.lt_or_ge n 19 with h | h
    · rw [min_eq_left h.le, min_eq_left (by omega)]
      interval_cases n <;>
        simp only [motor_speeds, Nat.reduceAdd, List.getD_eq_getElem?_getD,
          List.getElem?_cons_succ, List.getElem?_cons_zero, Option.getD_some] <;>
        norm_num
    · rw [min_eq_right h, min_eq_right (by omega)]
  have := monotone_nat_of_le_succ step hij
  simpa [min_eq_left (hij.trans hj), min_eq_left hj] using this

/-- The thrust coefficients of the levels 0..19 do not decrease. -/
theorem motor_thrusts_mono (i j : Nat) (hij : i ≤ j) (hj : j ≤ 19) :
    motor_thrusts.getD i 0 ≤ motor_thrusts.getD j 0 := by
  have step : ∀ n,
      motor_thrusts.getD (min n 19) 0 ≤ motor_thrusts.getD (min (n + 1) 19) 0 := by
    intro n
    rcases Nat.lt_or_ge n 19 with h | h
    · rw [min_eq_left h.le, min_eq_left (by omega)]
      interval_cases n <;>
        simp only [motor_thrusts, Nat.reduceAdd, List.getD_eq_getElem?_getD,
          List.getElem?_cons_succ, List.getElem?_cons_zero, Option.getD_some] <;>
        norm_num
    · rw [min_eq_right h, min_eq_right (by omega)]
  have := monotone_nat_of_le_succ step hij
  simpa [min_eq_left (hij.trans hj), min_eq_left hj] using this

/-- Filtered control 1/2 selects index 10. -/
theorem closest_idx_half : closest_idx (1 / 2) = 10 := by
  rw [closest_idx_of_nonneg (1 / 2) (by norm_num), Int.floor_eq_iff]
  norm_num

/-- Filtered control 3/4 selects index 15. -/
theorem closest_idx_three_quarters : closest_idx (3 / 4) = 15 := by
  rw [closest_idx_of_nonneg (3 / 4) (by norm_num), Int.floor_eq_iff]
  norm_num

/-- The output `setOutput` writes for a filter whose output is one half. -/
theorem setOutput_half (o : Output) (p : RotorParams) (flt : FirstOrderFilter)
    (d : RotorTurningDirection) (h : flt.output = 1 / 2) :
    setOutput o p flt d = some
      { thrust := 9.8 * 0.026399911495665
        torque_scaler := (9.8 * 0.026399911495665 * 12) * (d.toInt : real_T)
        speed := 5322
        turning_direction := d
        control_signal_filtered := 1 / 2
        control_signal_input := flt.input } := by
  have hi : closest_idx flt.output = (10 : Nat) := by rw [h]; exact closest_idx_half
  rw [setOutput_eq o p flt d 10 5322 0.026399911495665 hi rfl rfl, h]

/-- The output `setOutput` writes for a filter whose output is three quarters. -/
theorem setOutput_three_quarters (o : Output) (p : RotorParams) (flt : FirstOrderFilter)
    (d : RotorTurningDirection) (h : flt.output = 3 / 4) :
    setOutput o p flt d = some
      { thrust := 9.8 * 0.0840208916811748
        torque_scaler := (9.8 * 0.0840208916811748 * 12) * (d.toInt : real_T)
        speed := 8779
        turning_direction := d
        control_signal_filtered := 3 / 4
        control_signal_input := flt.input } := by
  have hi : closest_idx flt.output = (15 : Nat) := by rw [h]; exact closest_idx_three_quarters
  rw [setOutput_eq o p flt d 15 8779 0.0840208916811748 hi rfl rfl, h]

/-- C8: for two filtered control values `a < b` in `[0, 1]`, `setOutput` computes an
output for each, and when both select a table entry with non-zero speed (the
calibrated non-stall region) the speed for `a` is at most the speed for `b` and the
thrust for `a` is at most the thrust for `b`. -/
theorem C8_lookup_monotone (o1 o2 : Output) (p1 p2 : RotorParams)
    (fa fb : FirstOrderFilter) (d1 d2 : RotorTurningDirection)
    (ha0 : 0 ≤ fa.getOutput) (hab : fa.getOutput < fb.getOutput) (hb1 : fb.getOutput ≤ 1) :
    ∃ oa ob, setOutput o1 p1 fa d1 = some oa ∧ setOutput o2 p2 fb d2 = some ob ∧
      (oa.speed ≠ 0 → ob.speed ≠ 0 → oa.speed ≤ ob.speed ∧ oa.thrust ≤ ob.thrust) := by
  have ha0' : 0 ≤ fa.output := ha0
  have hab' : fa.output < fb.output := hab
  have hb1' : fb.output ≤ 1 := hb1
  obtain ⟨i, sa, ca, _, hi, hsa, hca, hoa⟩ :=
    setOutput_in_range o1 p1 fa d1 ha0' (by linarith)
  obtain ⟨j, sb, cb, hj, hjdx, hsb, hcb, hob⟩ :=
    setOutput_in_range o2 p2 fb d2 (by linarith) hb1'
  have hij : i ≤ j := by
    have := closest_idx_mono fa.output fb.output ha0' hab'.le
    rw [hi, hjdx] at this
    exact_mod_cast this
  refine ⟨_, _, hoa, hob, fun _ _ => ⟨?_, ?_⟩⟩
  · have h := motor_speeds_mono i j hij hj
    simpa [List.getD_eq_getElem?_getD, hsa, hsb] using h
  · have h := motor_thrusts_mono i j hij hj
    simp only [List.getD_eq_getElem?_getD, hca, hcb, Option.getD_some] at h
    show (9.8 : real_T) * ca ≤ 9.8 * cb
    exact mul_le_mul_of_nonneg_left h (by norm_num)

/-- C8 at the filtered controls 1/2 and 3/4, which select the speeds 5322 and 8779. -/
theorem C8_lookup_monotone_witness :
    ∃ oa ob, setOutput example_actuator.output_ example_actuator.params_ ⟨0, 1, 1 / 2⟩
        .RotorTurningDirectionCW = some oa ∧
      setOutput example_actuator.output_ example_actuator.params_ ⟨0, 1, 3 / 4⟩
        .RotorTurningDirectionCW = some ob ∧
      oa.speed = 5322 ∧ ob.speed = 8779 ∧ oa.speed ≤ ob.speed ∧ oa.thrust ≤ ob.thrust := by
  obtain ⟨oa, ob, ha, hb, h⟩ := C8_lookup_monotone example_actuator.output_
    example_actuator.output_ example_actuator.params_ example_actuator.params_
    ⟨0, 1, 1 / 2⟩ ⟨0, 1, 3 / 4⟩ .RotorTurningDirectionCW .RotorTurningDirectionCW
    (by norm_num [FirstOrderFilter.getOutput]) (by norm_num [FirstOrderFilter.getOutput])
    (by norm_num [FirstOrderFilter.getOutput])
  have ea : oa.speed = 5322 := by
    rw [setOutput_half _ _ _ _ rfl] at ha
    rw [← Option.some.inj ha]
  have eb : ob.speed = 8779 := by
    rw [setOutput_three_quarters _ _ _ _ rfl] at hb
    rw [← Option.some.inj hb]
  have hm := h (by rw [ea]; norm_num) (by rw [eb]; norm_num)
  exact ⟨oa, ob, ha, hb, ea, eb, hm.1, hm.2⟩

/-- The result of `update` in terms of the value of `setOutput`, field by field. -/
theorem update_out (s : RotorActuator) (env : Environment) (alpha : real_T) (out : Output)
    (h : s.environment_bound = true)
    (ho : setOutput s.output_ s.params_ s.control_signal_filter_ s.turning_direction_
      = some out) :
    ∃ s1, s.update env alpha = some s1 ∧ s1.environment_bound = true ∧ s1.output_ = out ∧
      s1.control_signal_filter_ = s.control_signal_filter_.update alpha ∧
      s1.turning_direction_ = s.turning_direction_ :=
  ⟨_, update_eq s env alpha out h ho, h, rfl, rfl, rfl⟩

/-- The clamp of 1/2 to `[0, 1]`. -/
theorem clip_half : Utils.clip (1 / 2) 0 1 = 1 / 2 := by
  norm_num [Utils.clip]

/-- C10, the code at filtered control 1: filtered control 0 selects level 0, but
filtered control 1 selects index 19, not the last level 50, and `setOutput` reports
the speed 11580 of level 19 where level 50 holds 26024. -/
theorem C10_full_signal_selects_level_19 :
    closest_idx 0 = 0 ∧ closest_idx 1 = 19 ∧ closest_idx 1 ≠ 50 ∧
    setOutput example_actuator.output_ example_actuator.params_ ⟨0, 1, 1⟩
      .RotorTurningDirectionCW = some
        { thrust := 9.8 * 0.156054104097401
          torque_scaler := 9.8 * 0.156054104097401 * 12 * 1
          speed := 11580
          turning_direction := .RotorTurningDirectionCW
          control_signal_filtered := 1
          control_signal_input := 1 } ∧
    motor_speeds[19]? = some 11580 ∧ motor_speeds[50]? = some 26024 := by
  refine ⟨closest_idx_zero, closest_idx_one, ?_, ?_, rfl, rfl⟩
  · rw [closest_idx_one]
    decide
  · rw [setOutput_one _ _ _ _ rfl]
    simp [RotorTurningDirection.toInt]

/-- C11: for every filtered control value in `[0, 1]` the table index that `setOutput`
computes lies within 0..50, below the length of both tables, so both table reads are
defined and `setOutput` returns: the out-of-range case of the read is not reached. -/
theorem C11_index_in_bounds (o : Output) (p : RotorParams) (flt : FirstOrderFilter)
    (d : RotorTurningDirection) (h0 : 0 ≤ flt.getOutput) (h1 : flt.getOutput ≤ 1) :
    0 ≤ closest_idx flt.getOutput ∧ closest_idx flt.getOutput ≤ 50 ∧
    (closest_idx flt.getOutput).toNat < motor_speeds.length ∧
    (closest_idx flt.getOutput).toNat < motor_thrusts.length ∧
    (∃ v, arrayAt motor_speeds (closest_idx flt.getOutput) = some v) ∧
    (∃ v, arrayAt motor_thrusts (closest_idx flt.getOutput) = some v) ∧
    ∃ out, setOutput o p flt d = some out := by
  have h0' : 0 ≤ flt.output := h0
  have h1' : flt.output ≤ 1 := h1
  obtain ⟨i, speed, coeff, hi19, hi, hs, hc, ho⟩ := setOutput_in_range o p flt d h0' h1'
  have hi' : closest_idx flt.getOutput = i := hi
  rw [hi', motor_speeds_length, motor_thrusts_length]
  refine ⟨by omega, by omega, by simp; omega, by simp; omega, ⟨speed, ?_⟩, ⟨coeff, ?_⟩, _, ho⟩
  · rw [arrayAt_ofNat, hs]
  · rw [arrayAt_ofNat, hc]

/-- C11 at filtered control 1. -/
theorem C11_index_in_bounds_witness :
    closest_idx 1 ≤ 50 ∧
    ∃ out, setOutput example_actuator.output_ example_actuator.params_ ⟨0, 1, 1⟩
      .RotorTurningDirectionCW = some out :=
  have h := C11_index_in_bounds example_actuator.output_ example_actuator.params_ ⟨0, 1, 1⟩
    .RotorTurningDirectionCW (by norm_num [FirstOrderFilter.getOutput])
    (by norm_num [FirstOrderFilter.getOutput])
  ⟨h.2.1, h.2.2.2.2.2.2⟩

/-- Filtered control 7/20 selects index 7. -/
theorem closest_idx_seven_twentieths : closest_idx (7 / 20) = 7 := by
  rw [closest_idx_of_nonneg (7 / 20) (by norm_num), Int.floor_eq_iff]
  norm_num

/-- The output `setOutput` writes for a filter whose output is 7/20. -/
theorem setOutput_seven_twentieths (o : Output) (p : RotorParams) (flt : FirstOrderFilter)
    (d : RotorTurningDirection) (h : flt.output = 7 / 20) :
    setOutput o p flt d = some
      { thrust := 9.8 * 0.00584632270310872
        torque_scaler := (9.8 * 0.00584632270310872 * 12) * (d.toInt : real_T)
        speed := 0
        turning_direction := d
        control_signal_filtered := 7 / 20
        control_signal_input := flt.input } := by
  have hi : closest_idx flt.output = (7 : Nat) := by
    rw [h]; exact closest_idx_seven_twentieths
  rw [setOutput_eq o p flt d 7 0 0.00584632270310872 hi rfl rfl, h]

/-- The levels of `motor_speeds` among 0..19 with entry 0 are the levels 0..7. -/
theorem motor_speeds_zero_level (i : Nat) (hi : i ≤ 19) (h : motor_speeds[i]? = some 0) :
    i ≤ 7 := by
  by_contra hcon
  have h8 : 8 ≤ i := by omega
  interval_cases i <;>
    simp only [motor_speeds, List.getElem?_cons_succ, List.getElem?_cons_zero,
      Option.some.injEq] at h <;>
    norm_num at h

/-- The thrust coefficients of the levels 0..6 are 0. -/
theorem motor_thrusts_zero_level (i : Nat) (hi : i ≤ 6) (c : real_T)
    (h : motor_thrusts[i]? = some c) : c = 0 := by
  interval_cases i <;>
    simp only [motor_thrusts, List.getElem?_cons_succ, List.getElem?_cons_zero,
      Option.some.injEq] at h <;>
    exact h.symm

/-- The entries of the levels 0..19: speeds between 0 and 11580, thrust coefficients
between 0 and 0.156054104097401. -/
theorem table_bounds (i : Nat) (hi : i ≤ 19) (speed coeff : real_T)
    (hs : motor_speeds[i]? = some speed) (hc : motor_thrusts[i]? = some coeff) :
    0 ≤ speed ∧ speed ≤ 11580 ∧ 0 ≤ coeff ∧ coeff ≤ 0.156054104097401 := by
  have s0 : motor_speeds.getD 0 0 = 0 := rfl
  have s19 : motor_speeds.getD 19 0 = 11580 := rfl
  have c0 : motor_thrusts.getD 0 0 = 0 := rfl
  have c19 : motor_thrusts.getD 19 0 = 0.156054104097401 := rfl
  have a := motor_speeds_mono 0 i (Nat.zero_le i) hi
  have b := motor_speeds_mono i 19 hi le_rfl
  have c := motor_thrusts_mono 0 i (Nat.zero_le i) hi
  have e := motor_thrusts_mono i 19 hi le_rfl
  rw [s0, List.getD_eq_getElem?_getD, hs] at a
  rw [s19, List.getD_eq_getElem?_getD, hs] at b
  rw [c0, List.getD_eq_getElem?_getD, hc] at c
  rw [c19, List.getD_eq_getElem?_getD, hc] at e
  exact ⟨a, b, c, e⟩

/-- `resetImplementation` and `update` of an actuator whose environment pointer is
null are undefined. -/
theorem unbound_none (s : RotorActuator) (env : Environment) (alpha : real_T)
    (h : s.environment_bound = false) :
    s.resetImplementation env = none ∧ s.update env alpha = none := by
  constructor
  · simp [RotorActuator.resetImplementation, RotorActuator.updateEnvironmentalFactors,
      RotorActuator.PhysicsBodyVertex_resetImplementation, h]
  · simp [RotorActuator.update, RotorActuator.updateEnvironmentalFactors, h]

/-- C13 as stated fails: constructing (and so initializing) an actuator with a null
environment pointer yields an object, with the null pointer stored; it is not the case
that construction succeeds exactly when the environment provider is present. -/
theorem C13_counterexample :
    (∃ s, RotorActuator.construct 1.225 ⟨1, 2, 3⟩ ⟨0, 0, -1⟩ .RotorTurningDirectionCW
        ⟨0, 5, 7⟩ false 3 = some s ∧ s.environment_bound = false) ∧
    ¬ ∀ (sea_level : real_T) (position normal : Vector3r)
        (turning_direction : RotorTurningDirection) (params : RotorParams)
        (environment : Bool) (id : Nat),
        (∃ s, RotorActuator.construct sea_level position normal turning_direction params
          environment id = some s) ↔ environment = true := by
  refine ⟨⟨_, rfl, rfl⟩, ?_⟩
  intro H
  have h := (H 1.225 ⟨1, 2, 3⟩ ⟨0, 0, -1⟩ .RotorTurningDirectionCW ⟨0, 5, 7⟩ false 3).mp
    ⟨_, rfl⟩
  exact Bool.false_ne_true h

/-- C13, amended: `initialize`, and the constructor that calls it, performs no check of
the environment provider. For every position, normal, direction, parameters and
environment pointer, null or not, it completes and stores the pointer as given; the
state it leaves differs from the one for a bound environment in the pointer only. With
a null pointer the failure is deferred: `resetImplementation` and `update` dereference
it and have no defined result; with a bound environment `resetImplementation`
returns. -/
theorem C13_initialize_unchecked :
    (∀ (sea_level : real_T) (position normal : Vector3r)
      (turning_direction : RotorTurningDirection) (params : RotorParams)
      (environment : Bool) (id : Nat),
      ∃ s, RotorActuator.construct sea_level position normal turning_direction params
          environment id = some s ∧
        s = RotorActuator.initialize RotorActuator.unset sea_level position normal
          turning_direction params environment id) ∧
    (∀ (r : RotorActuator) (sea_level : real_T) (position normal : Vector3r)
      (turning_direction : RotorTurningDirection) (params : RotorParams)
      (environment : Bool) (id : Nat),
      ( RotorActuator.initialize r sea_level position normal turning_direction params
        environment id).environment_bound = environment ∧
      ( RotorActuator.initialize r sea_level position normal turning_direction params
        environment id) =
        { RotorActuator.initialize r sea_level position normal turning_direction params
            true id with environment_bound := environment }) ∧
    (∀ (s : RotorActuator) (env : Environment) (alpha : real_T),
      s.environment_bound = false →
        s.resetImplementation env = none ∧ s.update env alpha = none) ∧
    (∀ (s : RotorActuator) (env : Environment),
      s.environment_bound = true → ∃ s1, s.resetImplementation env = some s1) := by
  refine ⟨?_, ?_, ?_, ?_⟩
  · intro sea_level position normal turning_direction params environment id
    exact ⟨_, rfl, rfl⟩
  · intro r sea_level position normal turning_direction params environment id
    exact ⟨rfl, rfl⟩
  · intro s env alpha h
    exact unbound_none s env alpha h
  · intro s env h
    exact ⟨_, resetImplementation_eq s env h⟩

/-- C13, amended, at the example geometry with a null and with a bound environment. -/
theorem C13_initialize_unchecked_witness :
    ( RotorActuator.initialize RotorActuator.unset 1.225 ⟨1, 2, 3⟩ ⟨0, 0, -1⟩
      .RotorTurningDirectionCW ⟨0, 5, 7⟩ false 3).resetImplementation ⟨1.225⟩ = none ∧
    ( RotorActuator.initialize RotorActuator.unset 1.225 ⟨1, 2, 3⟩ ⟨0, 0, -1⟩
      .RotorTurningDirectionCW ⟨0, 5, 7⟩ false 3).update ⟨1.225⟩ 0 = none ∧
    ∃ s1, example_actuator.resetImplementation ⟨1.225⟩ = some s1 :=
  ⟨(C13_initialize_unchecked.2.2.1 _ ⟨1.225⟩ 0 rfl).1,
   (C13_initialize_unchecked.2.2.1 _ ⟨1.225⟩ 0 rfl).2,
   C13_initialize_unchecked.2.2.2 example_actuator ⟨1.225⟩ rfl⟩

/-- In a state reachable after a reset the direction on record is the direction of the
actuator. -/
theorem reachable_direction (s : RotorActuator) (h : Reachable s) :
    s.output_.turning_direction = s.turning_direction_ := by
  obtain ⟨o, p, flt, ho⟩ := reachable_output s h
  obtain ⟨_, _, _, _, e⟩ := setOutput_some _ _ _ _ _ ho
  rw [e]

/-- C14: `reportState` leaves every field of the actuator unchanged and emits six named
values: the direction of the actuator and raw control, filtered control, speed, thrust
and torque scalar of the output on record. A second call with no `update` or `reset`
in between emits the same six values again, and again leaves the actuator unchanged.
In every state reachable after a reset the emitted direction is also the direction
field of the output on record. -/
theorem C14_reportState_read_only :
    (∀ (s : RotorActuator) (reporter : StateReporter),
      (s.reportState reporter).1 = s ∧
      (s.reportState reporter).2.entries = reporter.entries ++
        [("Dir", .int s.turning_direction_.toInt),
         ("Ctrl-in", .real s.output_.control_signal_input),
         ("Ctrl-fl", .real s.output_.control_signal_filtered),
         ("speed", .real s.output_.speed),
         ("thrust", .real s.output_.thrust),
         ("torque", .real s.output_.torque_scaler)] ∧
      ((s.reportState reporter).1.reportState reporter).2 = (s.reportState reporter).2 ∧
      ((s.reportState reporter).1.reportState (s.reportState reporter).2).1 = s ∧
      ((s.reportState reporter).1.reportState (s.reportState reporter).2).2.entries =
        (s.reportState reporter).2.entries ++
          ((s.reportState ⟨[]⟩).2.entries)) ∧
    (∀ s : RotorActuator, Reachable s →
      s.turning_direction_.toInt = s.output_.turning_direction.toInt) := by
  refine ⟨?_, ?_⟩
  · intro s reporter
    refine ⟨rfl, ?_, rfl, rfl, ?_⟩ <;>
      simp [RotorActuator.reportState, StateReporter.writeValue]
  · intro s hs
    rw [reachable_direction s hs]

/-- C14 at `example_after_step`, a state reachable after a reset. -/
theorem C14_reportState_read_only_witness :
    example_after_step.turning_direction_.toInt
      = example_after_step.output_.turning_direction.toInt :=
  C14_reportState_read_only.2 example_after_step example_after_step_reachable

/-- C15, the tables as they are: `motor_speeds` holds 21536 at index 38 and 19462 at
index 39, so the speed drops between two neighbouring levels. Apart from that step
both tables do not decrease: the speeds of the levels 0..38 and of the levels 39..50,
and all thrust coefficients, are in non-decreasing order. -/
theorem C15_speed_table_dips_at_39 :
    motor_speeds[38]? = some 21536 ∧ motor_speeds[39]? = some 19462 ∧
    motor_speeds.getD 39 0 < motor_speeds.getD 38 0 ∧
    List.Chain' (fun a b => a ≤ b) (motor_speeds.take 39) ∧
    List.Chain' (fun a b => a ≤ b) (motor_speeds.drop 39) ∧
    List.Chain' (fun a b => a ≤ b) motor_thrusts := by
  refine ⟨rfl, rfl, ?_, ?_, ?_, ?_⟩
  · have a : motor_speeds.getD 39 0 = 19462 := rfl
    have b : motor_speeds.getD 38 0 = 21536 := rfl
    rw [a, b]
    norm_num
  · simp only [motor_speeds, List.take_succ_cons, List.take_zero, List.chain'_cons,
      List.chain'_singleton]
    norm_num
  · simp only [motor_speeds, List.drop_succ_cons, List.drop_zero, List.chain'_cons,
      List.chain'_singleton]
    norm_num
  · simp only [motor_thrusts, List.chain'_cons, List.chain'_singleton]
    norm_num

/-- C16, the code at filtered control 1/25 (scaled signal 1040, an integer): with the
division of reals `rounded` is 1059, not a multiple of 20, and the index is 1; the
integer ceiling-division pattern of the spec rounds 1040 to 1040 and gives index 0. -/
theorem C16_real_division_does_not_round :
    (0 : real_T) ≤ 1 / 25 ∧ (1 / 25 : real_T) ≤ 1 ∧
    converted_signal (1 / 25) = ((1040 : Int) : real_T) ∧
    rounded (1 / 25) = 1059 ∧
    closest_idx (1 / 25) = 1 ∧
    ((1040 + 20 - 1 : Int).tdiv 20) * 20 = 1040 ∧
    closest_idx_integer 1040 = 0 ∧
    closest_idx (1 / 25) ≠ closest_idx_integer 1040 := by
  have hidx : closest_idx (1 / 25) = 1 := by
    rw [closest_idx_of_nonneg (1 / 25) (by norm_num), Int.floor_eq_iff]
    norm_num
  refine ⟨by norm_num, by norm_num, ?_, ?_, hidx, by decide, by decide, ?_⟩
  · norm_num [converted_signal]
  · norm_num [rounded, converted_signal]
  · rw [hidx]
    decide

/-- The sea-level density is the same in every state reachable from `init`. -/
theorem reachableFromInit_sea_level (weights : real_T → Prop) (init s : RotorActuator)
    (h : ReachableFromInit weights init s) :
    s.air_density_sea_level_ = init.air_density_sea_level_ := by
  induction h with
  | initialized => rfl
  | reset s s1 env _ hr ih =>
    rw [(resetImplementation_some s s1 env hr).2]
    exact ih
  | setControlSignal s x _ ih => exact ih
  | update s s1 env alpha _ _ hu ih =>
    rw [update_some_eq s s1 env alpha hu]
    exact ih

/-- C17: the density ratio is sampled anew in every step. `initialize` stores the
sea-level density, and no later call changes it. In every state reachable from the
initialized one, a `resetImplementation` or `update` that returns stores the ratio of
the environment's air density at that call to the sea-level density of
initialization, whatever ratio was stored before, and the wrench reported during that
`update` is scaled by this freshly sampled ratio. Both calls return for a bound
environment (and, for `update`, a filter output in `[0, 1]`). -/
theorem C17_ratio_resampled :
    (∀ (r : RotorActuator) (sea_level : real_T) (position normal : Vector3r)
      (turning_direction : RotorTurningDirection) (params : RotorParams)
      (environment : Bool) (id : Nat),
      ( RotorActuator.initialize r sea_level position normal turning_direction params
        environment id).air_density_sea_level_ = sea_level) ∧
    (∀ (weights : real_T → Prop) (init s : RotorActuator),
      ReachableFromInit weights init s →
        s.air_density_sea_level_ = init.air_density_sea_level_ ∧
        (∀ (env : Environment) (s1 : RotorActuator), s.resetImplementation env = some s1 →
          s1.air_density_ratio_ = env.air_density / init.air_density_sea_level_) ∧
        (∀ (env : Environment) (alpha : real_T) (s1 : RotorActuator),
          s.update env alpha = some s1 →
            s1.air_density_ratio_ = env.air_density / init.air_density_sea_level_ ∧
            s1.current_wrench =
              { force := (s.getNormal.scale s.output_.thrust).scale
                  (env.air_density / init.air_density_sea_level_)
                torque := (s.getNormal.scale s.output_.torque_scaler).scale
                  (env.air_density / init.air_density_sea_level_) })) ∧
    (∀ (s : RotorActuator) (env : Environment), s.environment_bound = true →
      ∃ s1, s.resetImplementation env = some s1 ∧
        s1.air_density_ratio_ = env.air_density / s.air_density_sea_level_) ∧
    (∀ (s : RotorActuator) (env : Environment) (alpha : real_T),
      s.environment_bound = true → 0 ≤ s.control_signal_filter_.getOutput →
        s.control_signal_filter_.getOutput ≤ 1 →
        ∃ s1, s.update env alpha = some s1 ∧
          s1.air_density_ratio_ = env.air_density / s.air_density_sea_level_ ∧
          s1.current_wrench =
            { force := (s.getNormal.scale s.output_.thrust).scale
                (env.air_density / s.air_density_sea_level_)
              torque := (s.getNormal.scale s.output_.torque_scaler).scale
                (env.air_density / s.air_density_sea_level_) }) := by
  refine ⟨?_, ?_, ?_, ?_⟩
  · intro r sea_level position normal turning_direction params environment id
    rfl
  · intro weights init s h
    have hsea := reachableFromInit_sea_level weights init s h
    refine ⟨hsea, ?_, ?_⟩
    · intro env s1 hr
      rw [(resetImplementation_some s s1 env hr).2, ← hsea]
    · intro env alpha s1 hu
      rw [update_some_eq s s1 env alpha hu, ← hsea]
      exact ⟨rfl, rfl⟩
  · intro s env hb
    exact ⟨_, resetImplementation_eq s env hb, rfl⟩
  · intro s env alpha hb h0 h1
    obtain ⟨i, speed, coeff, _, _, _, _, ho⟩ := setOutput_in_range s.output_ s.params_
      s.control_signal_filter_ s.turning_direction_ h0 h1
    exact ⟨_, update_eq s env alpha _ hb ho, rfl, rfl⟩

/-- C17 at `example_after_step`: the ratio stored by the previous step is 1, the update
in an environment of density 0.98 stores 0.98 over the sea-level density. -/
theorem C17_ratio_resampled_witness :
    example_after_step.air_density_ratio_ = 1 ∧
    ∃ s1, example_after_step.update ⟨49 / 50⟩ 0 = some s1 ∧
      s1.air_density_ratio_ = (49 / 50) / example_after_step.air_density_sea_level_ :=
  ⟨rfl, by
    obtain ⟨s1, h, hr, _⟩ := C17_ratio_resampled.2.2.2 example_after_step ⟨49 / 50⟩ 0 rfl
      (by norm_num [example_after_step, FirstOrderFilter.getOutput])
      (by norm_num [example_after_step, FirstOrderFilter.getOutput])
    exact ⟨s1, h, hr⟩⟩

/-- The clamp `Utils.clip x 0 1` lies in `[0, 1]`. -/
theorem clip_mem_unit (x : real_T) : 0 ≤ Utils.clip x 0 1 ∧ Utils.clip x 0 1 ≤ 1 := by
  unfold Utils.clip
  split_ifs with h1 h2
  · exact ⟨le_rfl, zero_le_one⟩
  · exact ⟨zero_le_one, le_rfl⟩
  · exact ⟨not_lt.mp h1, not_lt.mp h2⟩

/-- With weights in `[0, 1]`, raw input and filtered output of the filter stay in `[0, 1]`
in every state reachable from an initialized actuator. -/
theorem reachableFromInit_unit (init s : RotorActuator)
    (hinit : init.control_signal_filter_.input = 0 ∧ init.control_signal_filter_.output = 0)
    (h : ReachableFromInit (fun a => 0 ≤ a ∧ a ≤ 1) init s) :
    (0 ≤ s.control_signal_filter_.input ∧ s.control_signal_filter_.input ≤ 1) ∧
    (0 ≤ s.control_signal_filter_.output ∧ s.control_signal_filter_.output ≤ 1) := by
  induction h with
  | initialized =>
    rw [hinit.1, hinit.2]
    exact ⟨⟨le_rfl, zero_le_one⟩, ⟨le_rfl, zero_le_one⟩⟩
  | reset s s1 env _ hr _ =>
    rw [(resetImplementation_some s s1 env hr).2]
    exact ⟨⟨le_rfl, zero_le_one⟩, ⟨le_rfl, zero_le_one⟩⟩
  | setControlSignal s x _ ih =>
    exact ⟨clip_mem_unit x, ih.2⟩
  | update s s1 env alpha _ hw hu ih =>
    obtain ⟨⟨i0, i1⟩, ⟨o0, o1⟩⟩ := ih
    obtain ⟨a0, a1⟩ := hw
    rw [update_some_eq s s1 env alpha hu]
    refine ⟨⟨i0, i1⟩, ?_, ?_⟩
    · show 0 ≤ alpha * s.control_signal_filter_.output
        + (1 - alpha) * s.control_signal_filter_.input
      have := mul_nonneg a0 o0
      have := mul_nonneg (sub_nonneg.mpr a1) i0
      linarith
    · show alpha * s.control_signal_filter_.output
        + (1 - alpha) * s.control_signal_filter_.input ≤ 1
      have := mul_le_mul_of_nonneg_left o1 a0
      have := mul_le_mul_of_nonneg_left i1 (sub_nonneg.mpr a1)
      linarith

/-- The environment pointer is the same in every state reachable from `init`. -/
theorem reachableFromInit_bound (weights : real_T → Prop) (init s : RotorActuator)
    (h : ReachableFromInit weights init s) :
    s.environment_bound = init.environment_bound := by
  induction h with
  | initialized => rfl
  | reset s s1 env _ hr ih =>
    rw [(resetImplementation_some s s1 env hr).2]
    exact ih
  | setControlSignal s x _ ih => exact ih
  | update s s1 env alpha _ _ hu ih =>
    rw [update_some_eq s s1 env alpha hu]
    exact ih

/-- C19: in every state reachable from `initialize` by `resetImplementation`,
`setControlSignal` with any argument, and `update` with a filter weight in `[0, 1]`,
the raw input and the filtered output of the filter lie in `[0, 1]`. Consequently the
table index that `setOutput` computes in such a state lies within 0..50 and
`setOutput` returns, although the code has no clamp on the index; with a bound
environment `resetImplementation` and `update` return in every such state. -/
theorem C19_filter_stays_in_unit_interval (r : RotorActuator) (sea_level : real_T)
    (position normal : Vector3r) (turning_direction : RotorTurningDirection)
    (params : RotorParams) (environment : Bool) (id : Nat) (s : RotorActuator)
    (h : ReachableFromInit (fun a => 0 ≤ a ∧ a ≤ 1)
      ( RotorActuator.initialize r sea_level position normal turning_direction params
        environment id) s) :
    0 ≤ s.control_signal_filter_.getInput ∧ s.control_signal_filter_.getInput ≤ 1 ∧
    0 ≤ s.control_signal_filter_.getOutput ∧ s.control_signal_filter_.getOutput ≤ 1 ∧
    0 ≤ closest_idx s.control_signal_filter_.getOutput ∧
    closest_idx s.control_signal_filter_.getOutput ≤ 50 ∧
    (∃ out, setOutput s.output_ s.params_ s.control_signal_filter_ s.turning_direction_
      = some out) ∧
    (environment = true → ∀ (env : Environment) (alpha : real_T),
      (∃ s1, s.resetImplementation env = some s1) ∧ ∃ s1, s.update env alpha = some s1) := by
  obtain ⟨⟨i0, i1⟩, ⟨o0, o1⟩⟩ := reachableFromInit_unit _ s ⟨rfl, rfl⟩ h
  have hb := reachableFromInit_bound _ _ s h
  obtain ⟨i, speed, coeff, _, hi, _, _, ho⟩ := setOutput_in_range s.output_ s.params_
    s.control_signal_filter_ s.turning_direction_ o0 o1
  have hn := closest_idx_nonneg s.control_signal_filter_.output o0
  have hl := closest_idx_le s.control_signal_filter_.output o0 o1
  refine ⟨i0, i1, o0, o1, hn, ?_, ⟨_, ho⟩, ?_⟩
  · show closest_idx s.control_signal_filter_.output ≤ 50
    omega
  · intro he env alpha
    have hb' : s.environment_bound = true := by
      rw [hb]
      exact he
    exact ⟨⟨_, resetImplementation_eq s env hb'⟩, ⟨_, update_eq s env alpha _ hb' ho⟩⟩

/-- `example_after_step` is reachable from the initialized example actuator with a
filter weight in `[0, 1]`. -/
theorem example_after_step_reachableFromInit :
    ReachableFromInit (fun a => 0 ≤ a ∧ a ≤ 1) example_actuator example_after_step := by
  obtain ⟨r, hr, hu⟩ := example_after_step_run
  exact ReachableFromInit.update _ _ ⟨1.225⟩ 0
    (ReachableFromInit.setControlSignal _ 1
      (ReachableFromInit.reset _ _ ⟨1.225⟩ ReachableFromInit.initialized hr))
    ⟨le_rfl, zero_le_one⟩ hu

/-- C19 at `example_after_step` and at the example actuator after `setControlSignal 5`. -/
theorem C19_filter_stays_in_unit_interval_witness :
    example_after_step.control_signal_filter_.getOutput ≤ 1 ∧
    closest_idx example_after_step.control_signal_filter_.getOutput ≤ 50 ∧
    (example_actuator.setControlSignal 5).control_signal_filter_.getInput ≤ 1 :=
  have h := C19_filter_stays_in_unit_interval RotorActuator.unset 1.225 ⟨1, 2, 3⟩ ⟨0, 0, -1⟩
    .RotorTurningDirectionCW ⟨0, 5, 7⟩ true 3 example_after_step
    example_after_step_reachableFromInit
  ⟨h.2.2.2.1, h.2.2.2.2.2.1,
   (C19_filter_stays_in_unit_interval RotorActuator.unset 1.225 ⟨1, 2, 3⟩ ⟨0, 0, -1⟩
    .RotorTurningDirectionCW ⟨0, 5, 7⟩ true 3 (example_actuator.setControlSignal 5)
    (ReachableFromInit.setControlSignal _ 5 ReachableFromInit.initialized)).2.1⟩

/-- C20: the output `setOutput` computes depends only on the raw input and the output
of the filter and on the turning direction. For any two `RotorParams` values, any two
previous output records and any filter time constant it gives the same result; hence
replacing the parameters of an actuator changes nothing in what `resetImplementation`
and `update` compute apart from the stored parameters themselves. -/
theorem C20_params_have_no_influence (o1 o2 : Output) (p1 p2 : RotorParams)
    (flt : FirstOrderFilter) (d : RotorTurningDirection) (tc : real_T)
    (s : RotorActuator) (env : Environment) (alpha : real_T) :
    setOutput o1 p1 flt d = setOutput o2 p2 flt d ∧
    setOutput o1 p1 flt d = setOutput o2 p2 ⟨tc, flt.getInput, flt.getOutput⟩ d ∧
    ({ s with params_ := p2 } : RotorActuator).resetImplementation env
      = (s.resetImplementation env).map (fun t => { t with params_ := p2 }) ∧
    ({ s with params_ := p2 } : RotorActuator).update env alpha
      = (s.update env alpha).map (fun t => { t with params_ := p2 }) := by
  have hcase : s.environment_bound = false ∨ s.environment_bound = true := by
    cases s.environment_bound <;> simp
  refine ⟨rfl, rfl, ?_, ?_⟩
  · rcases hcase with hb | hb
    · rw [(unbound_none s env alpha hb).1, (unbound_none _ env alpha
        (show ({ s with params_ := p2 } : RotorActuator).environment_bound = false from hb)).1]
      rfl
    · rw [resetImplementation_eq s env hb, resetImplementation_eq _ env
        (show ({ s with params_ := p2 } : RotorActuator).environment_bound = true from hb)]
      rfl
  · rcases hcase with hb | hb
    · rw [(unbound_none s env alpha hb).2, (unbound_none _ env alpha
        (show ({ s with params_ := p2 } : RotorActuator).environment_bound = false from hb)).2]
      rfl
    · cases ho : setOutput s.output_ s.params_ s.control_signal_filter_ s.turning_direction_ with
      | none =>
        have e1 : s.update env alpha = none := by
          simp [RotorActuator.update, RotorActuator.PhysicsBodyVertex_update,
            updateEnvironmentalFactors_bound, hb, ho]
        have ho2 : setOutput ({ s with params_ := p2 } : RotorActuator).output_
            ({ s with params_ := p2 } : RotorActuator).params_
            ({ s with params_ := p2 } : RotorActuator).control_signal_filter_
            ({ s with params_ := p2 } : RotorActuator).turning_direction_ = none := ho
        have e2 : ({ s with params_ := p2 } : RotorActuator).update env alpha = none := by
          simp [RotorActuator.update, RotorActuator.PhysicsBodyVertex_update,
            updateEnvironmentalFactors_bound, hb, ho2]
        rw [e1, e2]
        rfl
      | some out =>
        rw [update_eq s env alpha out hb ho, update_eq _ env alpha out
          (show ({ s with params_ := p2 } : RotorActuator).environment_bound = true from hb) ho]
        rfl

/-! ## Binary floating-point rounding -/

/-- Rounding to the nearest integer gives the floor or the floor plus one. -/
theorem roundHalfEven_bounds (r : ℚ) : ⌊r⌋ ≤ roundHalfEven r ∧ roundHalfEven r ≤ ⌊r⌋ + 1 := by
  unfold roundHalfEven
  split_ifs <;> constructor <;> omega

/-- An integer rounds to itself. -/
theorem roundHalfEven_intCast (n : Int) : roundHalfEven (n : ℚ) = n := by
  unfold roundHalfEven
  simp

/-- Rounding to the nearest integer, ties to even, is monotone. -/
theorem roundHalfEven_mono (r s : ℚ) (h : r ≤ s) : roundHalfEven r ≤ roundHalfEven s := by
  have hfl : ⌊r⌋ ≤ ⌊s⌋ := Int.floor_mono h
  rcases hfl.eq_or_lt with he | hlt
  · unfold roundHalfEven
    rw [← he]
    have hrs : r - ⌊r⌋ ≤ s - ⌊r⌋ := by linarith
    split_ifs <;> first | omega | (exfalso; linarith)
  · have h1 := (roundHalfEven_bounds r).2
    have h2 := (roundHalfEven_bounds s).1
    omega

/-- The rounding of a non-negative rational is not negative. -/
theorem roundBinaryNonneg_nonneg (p : Nat) (emin : Int) (x : ℚ) (hx : 0 ≤ x) :
    0 ≤ roundBinaryNonneg p emin x := by
  unfold roundBinaryNonneg
  have hq : (0 : ℚ) < 2 ^ (max (Int.log 2 x) emin - (p - 1)) := by positivity
  have h0 : roundHalfEven 0 ≤ roundHalfEven (x / 2 ^ (max (Int.log 2 x) emin - (p - 1))) :=
    roundHalfEven_mono _ _ (div_nonneg hx hq.le)
  have h00 : roundHalfEven 0 = 0 := by simpa using roundHalfEven_intCast 0
  rw [h00] at h0
  have : (0 : ℚ) ≤ (roundHalfEven (x / 2 ^ (max (Int.log 2 x) emin - (p - 1))) : ℚ) := by
    exact_mod_cast h0
  exact mul_nonneg this hq.le

/-- Zero rounds to zero. -/
theorem roundBinaryNonneg_zero (p : Nat) (emin : Int) : roundBinaryNonneg p emin 0 = 0 := by
  unfold roundBinaryNonneg
  have h00 : roundHalfEven 0 = 0 := by simpa using roundHalfEven_intCast 0
  simp [h00]

/-- Rounding to a binary format is monotone on the non-negative rationals. -/
theorem roundBinaryNonneg_mono (p : Nat) (emin : Int) (hp : 1 ≤ p) (x y : ℚ) (hx : 0 ≤ x)
    (hxy : x ≤ y) : roundBinaryNonneg p emin x ≤ roundBinaryNonneg p emin y := by
  rcases hx.eq_or_lt with h0 | hpos
  · rw [← h0, roundBinaryNonneg_zero]
    exact roundBinaryNonneg_nonneg p emin y (hx.trans hxy)
  have hypos : 0 < y := lt_of_lt_of_le hpos hxy
  have hE : max (Int.log 2 x) emin ≤ max (Int.log 2 y) emin :=
    max_le_max (Int.log_mono_right hpos hxy) le_rfl
  unfold roundBinaryNonneg
  rcases hE.eq_or_lt with he | hlt
  · rw [he]
    have hq : (0 : ℚ) < 2 ^ (max (Int.log 2 y) emin - (p - 1)) := by positivity
    have hdiv : x / 2 ^ (max (Int.log 2 y) emin - (p - 1))
        ≤ y / 2 ^ (max (Int.log 2 y) emin - (p - 1)) :=
      div_le_div_of_nonneg_right hxy hq.le
    have := roundHalfEven_mono _ _ hdiv
    have hc : (roundHalfEven (x / 2 ^ (max (Int.log 2 y) emin - (p - 1))) : ℚ)
        ≤ (roundHalfEven (y / 2 ^ (max (Int.log 2 y) emin - (p - 1))) : ℚ) := by
      exact_mod_cast this
    exact mul_le_mul_of_nonneg_right hc hq.le
  · set ex := max (Int.log 2 x) emin with hex
    set ey := max (Int.log 2 y) emin with hey
    have hqx : (0 : ℚ) < 2 ^ (ex - (p - 1)) := by positivity
    have hqy : (0 : ℚ) < 2 ^ (ey - (p - 1)) := by positivity
    have hlogy : ey = Int.log 2 y := by
      have : emin ≤ ex := le_max_right _ _
      rw [hey]
      apply max_eq_left
      by_contra hcon
      push_neg at hcon
      have : ey = emin := by rw [hey]; exact max_eq_right hcon.le
      omega
    have hxlt : x < 2 ^ (ex + 1) := by
      have h1 : x < (2 : ℚ) ^ (Int.log 2 x + 1) := by
        have := Int.lt_zpow_succ_log_self (b := 2) (by norm_num) x
        exact_mod_cast this
      have h2 : (2 : ℚ) ^ (Int.log 2 x + 1) ≤ 2 ^ (ex + 1) :=
        zpow_le_zpow_right₀ (by norm_num) (by have := le_max_left (Int.log 2 x) emin; omega)
      exact lt_of_lt_of_le h1 h2
    have hA : (roundHalfEven (x / 2 ^ (ex - (p - 1))) : ℚ) * 2 ^ (ex - (p - 1))
        ≤ 2 ^ (ex + 1) := by
      have hr : x / 2 ^ (ex - (p - 1)) ≤ (((2 : Int) ^ p : Int) : ℚ) := by
        rw [div_le_iff₀ hqx]
        have : ((((2 : Int) ^ p : Int) : ℚ)) * 2 ^ (ex - ((p : Int) - 1)) = 2 ^ (ex + 1) := by
          push_cast
          rw [← zpow_natCast, ← zpow_add₀ (by norm_num)]
          congr 1
          ring
        rw [this]
        exact hxlt.le
      have h3 := roundHalfEven_mono _ _ hr
      rw [roundHalfEven_intCast] at h3
      have h4 : (roundHalfEven (x / 2 ^ (ex - (p - 1))) : ℚ) ≤ (((2 : Int) ^ p : Int) : ℚ) := by
        exact_mod_cast h3
      calc (roundHalfEven (x / 2 ^ (ex - (p - 1))) : ℚ) * 2 ^ (ex - (p - 1))
          ≤ (((2 : Int) ^ p : Int) : ℚ) * 2 ^ (ex - (p - 1)) :=
            mul_le_mul_of_nonneg_right h4 hqx.le
        _ = 2 ^ (ex + 1) := by
          push_cast
          rw [← zpow_natCast, ← zpow_add₀ (by norm_num)]
          congr 1
          ring
    have hyge : (2 : ℚ) ^ ey ≤ y := by
      rw [hlogy]
      have := Int.zpow_log_le_self (b := 2) (by norm_num) hypos
      exact_mod_cast this
    have hB : (2 : ℚ) ^ ey
        ≤ (roundHalfEven (y / 2 ^ (ey - (p - 1))) : ℚ) * 2 ^ (ey - (p - 1)) := by
      obtain ⟨k, hk⟩ : ∃ k : Nat, p = k + 1 := ⟨p - 1, by omega⟩
      have hr : (((2 : Int) ^ k : Int) : ℚ) ≤ y / 2 ^ (ey - (p - 1)) := by
        rw [le_div_iff₀ hqy]
        have : ((((2 : Int) ^ k : Int) : ℚ)) * 2 ^ (ey - ((p : Int) - 1)) = 2 ^ ey := by
          push_cast
          rw [← zpow_natCast, ← zpow_add₀ (by norm_num), hk]
          congr 1
          push_cast
          ring
        rw [this]
        exact hyge
      have h3 := roundHalfEven_mono _ _ hr
      rw [roundHalfEven_intCast] at h3
      have h4 : (((2 : Int) ^ k : Int) : ℚ) ≤ (roundHalfEven (y / 2 ^ (ey - (p - 1))) : ℚ) := by
        exact_mod_cast h3
      calc (2 : ℚ) ^ ey = (((2 : Int) ^ k : Int) : ℚ) * 2 ^ (ey - (p - 1)) := by
            push_cast
            rw [← zpow_natCast, ← zpow_add₀ (by norm_num), hk]
            congr 1
            push_cast
            ring
        _ ≤ _ := mul_le_mul_of_nonneg_right h4 hqy.le
    have hmid : (2 : ℚ) ^ (ex + 1) ≤ 2 ^ ey :=
      zpow_le_zpow_right₀ (by norm_num) (by omega)
    exact hA.trans (hmid.trans hB)

/-- Rounding to a binary format is monotone. -/
theorem roundBinary_mono (p : Nat) (emin : Int) (hp : 1 ≤ p) (x y : ℚ) (hxy : x ≤ y) :
    roundBinary p emin x ≤ roundBinary p emin y := by
  unfold roundBinary
  by_cases hx : 0 ≤ x
  · have hy : 0 ≤ y := hx.trans hxy
    rw [if_pos hx, if_pos hy]
    exact roundBinaryNonneg_mono p emin hp x y hx hxy
  · rw [if_neg hx]
    push_neg at hx
    by_cases hy : 0 ≤ y
    · rw [if_pos hy]
      have := roundBinaryNonneg_nonneg p emin (-x) (by linarith)
      have := roundBinaryNonneg_nonneg p emin y hy
      linarith
    · rw [if_neg hy]
      push_neg at hy
      have := roundBinaryNonneg_mono p emin hp (-y) (-x) (by linarith) (by linarith)
      linarith

/-- Rounding to binary32 is monotone. -/
theorem binary32_mono (x y : ℚ) (h : x ≤ y) : binary32 x ≤ binary32 y :=
  roundBinary_mono 24 (-126) (by norm_num) x y h

/-- Rounding to binary64 is monotone. -/
theorem binary64_mono (x y : ℚ) (h : x ≤ y) : binary64 x ≤ binary64 y :=
  roundBinary_mono 53 (-1022) (by norm_num) x y h

/-- The binary32 value of a non-negative rational is not negative. -/
theorem binary32_nonneg (x : ℚ) (h : 0 ≤ x) : 0 ≤ binary32 x := by
  unfold binary32 roundBinary
  rw [if_pos h]
  exact roundBinaryNonneg_nonneg _ _ x h

/-- The binary64 value of a non-negative rational is not negative. -/
theorem binary64_nonneg (x : ℚ) (h : 0 ≤ x) : 0 ≤ binary64 x := by
  unfold binary64 roundBinary
  rw [if_pos h]
  exact roundBinaryNonneg_nonneg _ _ x h

/-- The conversion to `int` is monotone. -/
theorem static_cast_int_mono (x y : ℚ) (h : x ≤ y) : static_cast_int x ≤ static_cast_int y := by
  unfold static_cast_int
  split_ifs with hx hy hy
  · exact Int.floor_mono h
  · exact absurd (hx.trans h) hy
  · have h1 : ⌈x⌉ ≤ 0 := Int.ceil_le.mpr (by push_cast; linarith)
    have h2 : 0 ≤ ⌊y⌋ := Int.floor_nonneg.mpr hy
    omega
  · exact Int.ceil_mono h

/-- The index computed in `float` arithmetic does not decrease with the filtered
control. -/
theorem closest_idx_binary32_mono (f g : ℚ) (h : f ≤ g) :
    closest_idx_binary32 f ≤ closest_idx_binary32 g := by
  unfold closest_idx_binary32 rounded_binary32 converted_signal_binary32
  apply static_cast_int_mono
  apply binary32_mono
  apply div_le_div_of_nonneg_right _ (by norm_num)
  apply binary32_mono
  apply sub_le_sub_right
  apply binary32_mono
  apply mul_le_mul_of_nonneg_right _ (by norm_num)
  apply binary32_mono
  apply div_le_div_of_nonneg_right _ (by norm_num)
  apply binary32_mono
  apply sub_le_sub_right
  apply binary32_mono
  apply add_le_add_right
  apply binary32_mono
  apply add_le_add_left
  apply binary32_mono
  exact mul_le_mul_of_nonneg_right h (by norm_num)

/-- The stored thrust does not decrease with the coefficient of the table. -/
theorem thrust_binary32_mono (c e : ℚ) (h : c ≤ e) : thrust_binary32 c ≤ thrust_binary32 e := by
  unfold thrust_binary32
  apply binary32_mono
  apply binary64_mono
  have h98 : 0 ≤ binary64 9.8 := binary64_nonneg _ (by norm_num)
  exact mul_le_mul_of_nonneg_left (binary32_mono _ _ (binary64_mono _ _ h)) h98

/-- The value of a rounding from the binary exponent `e` of the argument: `x` lies in
`[2 ^ e, 2 ^ (e + 1))` and is rounded to a multiple of `2 ^ (e - (p - 1))`. -/
theorem roundBinary_eq (p : Nat) (emin : Int) (x r : ℚ) (e : Int)
    (h : (2 : ℚ) ^ e ≤ x ∧ x < 2 ^ (e + 1) ∧ emin ≤ e ∧
      (roundHalfEven (x / 2 ^ (e - (p - 1))) : ℚ) * 2 ^ (e - (p - 1)) = r) :
    roundBinary p emin x = r := by
  obtain ⟨h1, h2, he, hr⟩ := h
  have hx : 0 < x := lt_of_lt_of_le (by positivity) h1
  have hlog : Int.log 2 x = e := by
    apply le_antisymm
    · have := (Int.lt_zpow_iff_log_lt (b := 2) (by norm_num) hx (x := e + 1)).mp
        (by exact_mod_cast h2)
      omega
    · exact (Int.zpow_le_iff_le_log (b := 2) (by norm_num) hx).mp (by exact_mod_cast h1)
  unfold roundBinary roundBinaryNonneg
  rw [if_pos hx.le, hlog, max_eq_left he]
  exact hr

theorem binary32_eq (x r : ℚ) (e : Int)
    (h : (2 : ℚ) ^ e ≤ x ∧ x < 2 ^ (e + 1) ∧ -126 ≤ e ∧
      (roundHalfEven (x / 2 ^ (e - 23)) : ℚ) * 2 ^ (e - 23) = r) : binary32 x = r := by
  unfold binary32
  apply roundBinary_eq 24 (-126) x r e
  have h23 : ((24 : Nat) : Int) - 1 = 23 := by norm_num
  rw [h23]
  exact h

theorem binary64_eq (x r : ℚ) (e : Int)
    (h : (2 : ℚ) ^ e ≤ x ∧ x < 2 ^ (e + 1) ∧ -1022 ≤ e ∧
      (roundHalfEven (x / 2 ^ (e - 52)) : ℚ) * 2 ^ (e - 52) = r) : binary64 x = r := by
  unfold binary64
  apply roundBinary_eq 53 (-1022) x r e
  have h52 : ((53 : Nat) : Int) - 1 = 52 := by norm_num
  rw [h52]
  exact h

theorem binary32_zero : binary32 0 = 0 := by
  unfold binary32 roundBinary
  rw [if_pos le_rfl, roundBinaryNonneg_zero]

theorem binary64_zero : binary64 0 = 0 := by
  unfold binary64 roundBinary
  rw [if_pos le_rfl, roundBinaryNonneg_zero]

/-- The index computed in `float` arithmetic from the results of its eight roundings. -/
theorem closest_idx_binary32_eq (f a c b d e g h v : ℚ) (k : Int)
    (h1 : binary32 (f * 1000) = a) (h2 : binary32 (1000 + a) = c)
    (h3 : binary32 (c + 20) = b) (h4 : binary32 (b - 1) = d) (h5 : binary32 (d / 20) = e)
    (h6 : binary32 (e * 20) = g) (h7 : binary32 (g - 1000) = h) (h8 : binary32 (h / 51) = v)
    (h9 : static_cast_int v = k) : closest_idx_binary32 f = k := by
  subst h1 h2 h3 h4 h5 h6 h7 h8 h9
  rfl

/-- The stored thrust from the results of its five roundings. -/
theorem thrust_binary32_eq (c c64 c32 g pr t : ℚ)
    (h1 : binary64 c = c64) (h2 : binary32 c64 = c32) (h3 : binary64 9.8 = g)
    (h4 : binary64 (g * c32) = pr) (h5 : binary32 pr = t) : thrust_binary32 c = t := by
  subst h1 h2 h3 h4 h5
  rfl

/-! ## Evaluations in binary32 arithmetic -/

/-- Filtered control 0 selects index 0 in binary32. -/
theorem closest_idx_binary32_zero : closest_idx_binary32 (0) = 0 :=
  closest_idx_binary32_eq (0) (0) (1000) (1020) (1019)
    (13356237 / 262144) (1019) (19) (12500671 / 33554432) 0
    (by decide!)
    (binary32_eq _ _ (9) (by decide!))
    (binary32_eq _ _ (9) (by decide!))
    (binary32_eq _ _ (9) (by decide!))
    (binary32_eq _ _ (5) (by decide!))
    (binary32_eq _ _ (9) (by decide!))
    (binary32_eq _ _ (4) (by decide!))
    (binary32_eq _ _ (-2) (by decide!))
    (by decide!)

/-- Filtered control 1 selects index 19 in binary32. -/
theorem closest_idx_binary32_one : closest_idx_binary32 (1) = 19 :=
  closest_idx_binary32_eq (1) (1000) (2000) (2020) (2019)
    (6615859 / 65536) (2019) (1019) (1309435 / 65536) 19
    (binary32_eq _ _ (9) (by decide!))
    (binary32_eq _ _ (10) (by decide!))
    (binary32_eq _ _ (10) (by decide!))
    (binary32_eq _ _ (10) (by decide!))
    (binary32_eq _ _ (6) (by decide!))
    (binary32_eq _ _ (10) (by decide!))
    (binary32_eq _ _ (9) (by decide!))
    (binary32_eq _ _ (4) (by decide!))
    (by decide!)

/-- Filtered control 1/2 selects index 10 in binary32. -/
theorem closest_idx_binary32_half : closest_idx_binary32 (1 / 2) = 10 :=
  closest_idx_binary32_eq (1 / 2) (500) (1500) (1520) (1519)
    (4977459 / 65536) (1519) (519) (10670803 / 1048576) 10
    (binary32_eq _ _ (8) (by decide!))
    (binary32_eq _ _ (10) (by decide!))
    (binary32_eq _ _ (10) (by decide!))
    (binary32_eq _ _ (10) (by decide!))
    (binary32_eq _ _ (6) (by decide!))
    (binary32_eq _ _ (10) (by decide!))
    (binary32_eq _ _ (9) (by decide!))
    (binary32_eq _ _ (3) (by decide!))
    (by decide!)

/-- The exact threshold of level 1 selects index 1 in binary32. -/
theorem closest_idx_binary32_level_1 : closest_idx_binary32 ((51 * 1 - 19) / 1000) = 1 :=
  closest_idx_binary32_eq ((51 * 1 - 19) / 1000) (32) (1032) (1052) (1051)
    (13775667 / 262144) (1051) (51) (1) 1
    (binary32_eq _ _ (5) (by decide!))
    (binary32_eq _ _ (10) (by decide!))
    (binary32_eq _ _ (10) (by decide!))
    (binary32_eq _ _ (10) (by decide!))
    (binary32_eq _ _ (5) (by decide!))
    (binary32_eq _ _ (10) (by decide!))
    (binary32_eq _ _ (5) (by decide!))
    (binary32_eq _ _ (0) (by decide!))
    (by decide!)

/-- The exact threshold of level 2 selects index 2 in binary32. -/
theorem closest_idx_binary32_level_2 : closest_idx_binary32 ((51 * 2 - 19) / 1000) = 2 :=
  closest_idx_binary32_eq ((51 * 2 - 19) / 1000) (83) (1083) (1103) (1102)
    (7222067 / 131072) (1102) (102) (2) 2
    (binary32_eq _ _ (6) (by decide!))
    (binary32_eq _ _ (10) (by decide!))
    (binary32_eq _ _ (10) (by decide!))
    (binary32_eq _ _ (10) (by decide!))
    (binary32_eq _ _ (5) (by decide!))
    (binary32_eq _ _ (10) (by decide!))
    (binary32_eq _ _ (6) (by decide!))
    (binary32_eq _ _ (1) (by decide!))
    (by decide!)

/-- The exact threshold of level 3 selects index 3 in binary32. -/
theorem closest_idx_binary32_level_3 : closest_idx_binary32 ((51 * 3 - 19) / 1000) = 3 :=
  closest_idx_binary32_eq ((51 * 3 - 19) / 1000) (134) (1134) (1154) (1153)
    (7556301 / 131072) (1153) (153) (3) 3
    (binary32_eq _ _ (7) (by decide!))
    (binary32_eq _ _ (10) (by decide!))
    (binary32_eq _ _ (10) (by decide!))
    (binary32_eq _ _ (10) (by decide!))
    (binary32_eq _ _ (5) (by decide!))
    (binary32_eq _ _ (10) (by decide!))
    (binary32_eq _ _ (7) (by decide!))
    (binary32_eq _ _ (1) (by decide!))
    (by decide!)

/-- The exact threshold of level 4 selects index 4 in binary32. -/
theorem closest_idx_binary32_level_4 : closest_idx_binary32 ((51 * 4 - 19) / 1000) = 4 :=
  closest_idx_binary32_eq ((51 * 4 - 19) / 1000) (185) (1185) (1205) (1204)
    (15781069 / 262144) (1204) (204) (4) 4
    (binary32_eq _ _ (7) (by decide!))
    (binary32_eq _ _ (10) (by decide!))
    (binary32_eq _ _ (10) (by decide!))
    (binary32_eq _ _ (10) (by decide!))
    (binary32_eq _ _ (5) (by decide!))
    (binary32_eq _ _ (10) (by decide!))
    (binary32_eq _ _ (7) (by decide!))
    (binary32_eq _ _ (2) (by decide!))
    (by decide!)

/-- The exact threshold of level 5 selects index 5 in binary32. -/
theorem closest_idx_binary32_level_5 : closest_idx_binary32 ((51 * 5 - 19) / 1000) = 5 :=
  closest_idx_binary32_eq ((51 * 5 - 19) / 1000) (236) (1236) (1256) (1255)
    (251 / 4) (1255) (255) (5) 5
    (binary32_eq _ _ (7) (by decide!))
    (binary32_eq _ _ (10) (by decide!))
    (binary32_eq _ _ (10) (by decide!))
    (binary32_eq _ _ (10) (by decide!))
    (binary32_eq _ _ (5) (by decide!))
    (binary32_eq _ _ (10) (by decide!))
    (binary32_eq _ _ (7) (by decide!))
    (binary32_eq _ _ (2) (by decide!))
    (by decide!)

/-- The exact threshold of level 6 selects index 6 in binary32. -/
theorem closest_idx_binary32_level_6 : closest_idx_binary32 ((51 * 6 - 19) / 1000) = 6 :=
  closest_idx_binary32_eq ((51 * 6 - 19) / 1000) (287) (1287) (1307) (1306)
    (4279501 / 65536) (1306) (306) (6) 6
    (binary32_eq _ _ (8) (by decide!))
    (binary32_eq _ _ (10) (by decide!))
    (binary32_eq _ _ (10) (by decide!))
    (binary32_eq _ _ (10) (by decide!))
    (binary32_eq _ _ (6) (by decide!))
    (binary32_eq _ _ (10) (by decide!))
    (binary32_eq _ _ (8) (by decide!))
    (binary32_eq _ _ (2) (by decide!))
    (by decide!)

/-- The exact threshold of level 7 selects index 7 in binary32. -/
theorem closest_idx_binary32_level_7 : closest_idx_binary32 ((51 * 7 - 19) / 1000) = 7 :=
  closest_idx_binary32_eq ((51 * 7 - 19) / 1000) (338) (1338) (1358) (1357)
    (8893235 / 131072) (1357) (357) (7) 7
    (binary32_eq _ _ (8) (by decide!))
    (binary32_eq _ _ (10) (by decide!))
    (binary32_eq _ _ (10) (by decide!))
    (binary32_eq _ _ (10) (by decide!))
    (binary32_eq _ _ (6) (by decide!))
    (binary32_eq _ _ (10) (by decide!))
    (binary32_eq _ _ (8) (by decide!))
    (binary32_eq _ _ (2) (by decide!))
    (by decide!)

/-- The exact threshold of level 8 selects index 8 in binary32. -/
theorem closest_idx_binary32_level_8 : closest_idx_binary32 ((51 * 8 - 19) / 1000) = 8 :=
  closest_idx_binary32_eq ((51 * 8 - 19) / 1000) (389) (1389) (1409) (1408)
    (9227469 / 131072) (1408) (408) (8) 8
    (binary32_eq _ _ (8) (by decide!))
    (binary32_eq _ _ (10) (by decide!))
    (binary32_eq _ _ (10) (by decide!))
    (binary32_eq _ _ (10) (by decide!))
    (binary32_eq _ _ (6) (by decide!))
    (binary32_eq _ _ (10) (by decide!))
    (binary32_eq _ _ (8) (by decide!))
    (binary32_eq _ _ (3) (by decide!))
    (by decide!)

/-- The exact threshold of level 9 selects index 9 in binary32. -/
theorem closest_idx_binary32_level_9 : closest_idx_binary32 ((51 * 9 - 19) / 1000) = 9 :=
  closest_idx_binary32_eq ((51 * 9 - 19) / 1000) (440) (1440) (1460) (1459)
    (4780851 / 65536) (1459) (459) (9) 9
    (binary32_eq _ _ (8) (by decide!))
    (binary32_eq _ _ (10) (by decide!))
    (binary32_eq _ _ (10) (by decide!))
    (binary32_eq _ _ (10) (by decide!))
    (binary32_eq _ _ (6) (by decide!))
    (binary32_eq _ _ (10) (by decide!))
    (binary32_eq _ _ (8) (by decide!))
    (binary32_eq _ _ (3) (by decide!))
    (by decide!)

/-- The exact threshold of level 10 selects index 10 in binary32. -/
theorem closest_idx_binary32_level_10 : closest_idx_binary32 ((51 * 10 - 19) / 1000) = 10 :=
  closest_idx_binary32_eq ((51 * 10 - 19) / 1000) (491) (1491) (1511) (1510)
    (151 / 2) (1510) (510) (10) 10
    (binary32_eq _ _ (8) (by decide!))
    (binary32_eq _ _ (10) (by decide!))
    (binary32_eq _ _ (10) (by decide!))
    (binary32_eq _ _ (10) (by decide!))
    (binary32_eq _ _ (6) (by decide!))
    (binary32_eq _ _ (10) (by decide!))
    (binary32_eq _ _ (8) (by decide!))
    (binary32_eq _ _ (3) (by decide!))
    (by decide!)

/-- The exact threshold of level 11 selects index 11 in binary32. -/
theorem closest_idx_binary32_level_11 : closest_idx_binary32 ((51 * 11 - 19) / 1000) = 11 :=
  closest_idx_binary32_eq ((51 * 11 - 19) / 1000) (542) (1542) (1562) (1561)
    (5115085 / 65536) (1561) (561) (11) 11
    (binary32_eq _ _ (9) (by decide!))
    (binary32_eq _ _ (10) (by decide!))
    (binary32_eq _ _ (10) (by decide!))
    (binary32_eq _ _ (10) (by decide!))
    (binary32_eq _ _ (6) (by decide!))
    (binary32_eq _ _ (10) (by decide!))
    (binary32_eq _ _ (9) (by decide!))
    (binary32_eq _ _ (3) (by decide!))
    (by decide!)

/-- The exact threshold of level 12 selects index 12 in binary32. -/
theorem closest_idx_binary32_level_12 : closest_idx_binary32 ((51 * 12 - 19) / 1000) = 12 :=
  closest_idx_binary32_eq ((51 * 12 - 19) / 1000) (593) (1593) (1613) (1612)
    (10564403 / 131072) (1612) (612) (12) 12
    (binary32_eq _ _ (9) (by decide!))
    (binary32_eq _ _ (10) (by decide!))
    (binary32_eq _ _ (10) (by decide!))
    (binary32_eq _ _ (10) (by decide!))
    (binary32_eq _ _ (6) (by decide!))
    (binary32_eq _ _ (10) (by decide!))
    (binary32_eq _ _ (9) (by decide!))
    (binary32_eq _ _ (3) (by decide!))
    (by decide!)

/-- The exact threshold of level 13 selects index 13 in binary32. -/
theorem closest_idx_binary32_level_13 : closest_idx_binary32 ((51 * 13 - 19) / 1000) = 13 :=
  closest_idx_binary32_eq ((51 * 13 - 19) / 1000) (644) (1644) (1664) (1663)
    (10898637 / 131072) (1663) (663) (13) 13
    (binary32_eq _ _ (9) (by decide!))
    (binary32_eq _ _ (10) (by decide!))
    (binary32_eq _ _ (10) (by decide!))
    (binary32_eq _ _ (10) (by decide!))
    (binary32_eq _ _ (6) (by decide!))
    (binary32_eq _ _ (10) (by decide!))
    (binary32_eq _ _ (9) (by decide!))
    (binary32_eq _ _ (3) (by decide!))
    (by decide!)

/-- The exact threshold of level 14 selects index 14 in binary32. -/
theorem closest_idx_binary32_level_14 : closest_idx_binary32 ((51 * 14 - 19) / 1000) = 14 :=
  closest_idx_binary32_eq ((51 * 14 - 19) / 1000) (695) (1695) (1715) (1714)
    (5616435 / 65536) (1714) (714) (14) 14
    (binary32_eq _ _ (9) (by decide!))
    (binary32_eq _ _ (10) (by decide!))
    (binary32_eq _ _ (10) (by decide!))
    (binary32_eq _ _ (10) (by decide!))
    (binary32_eq _ _ (6) (by decide!))
    (binary32_eq _ _ (10) (by decide!))
    (binary32_eq _ _ (9) (by decide!))
    (binary32_eq _ _ (3) (by decide!))
    (by decide!)

/-- The exact threshold of level 15 selects index 15 in binary32. -/
theorem closest_idx_binary32_level_15 : closest_idx_binary32 ((51 * 15 - 19) / 1000) = 15 :=
  closest_idx_binary32_eq ((51 * 15 - 19) / 1000) (746) (1746) (1766) (1765)
    (353 / 4) (1765) (765) (15) 15
    (binary32_eq _ _ (9) (by decide!))
    (binary32_eq _ _ (10) (by decide!))
    (binary32_eq _ _ (10) (by decide!))
    (binary32_eq _ _ (10) (by decide!))
    (binary32_eq _ _ (6) (by decide!))
    (binary32_eq _ _ (10) (by decide!))
    (binary32_eq _ _ (9) (by decide!))
    (binary32_eq _ _ (3) (by decide!))
    (by decide!)

/-- The exact threshold of level 16 selects index 16 in binary32. -/
theorem closest_idx_binary32_level_16 : closest_idx_binary32 ((51 * 16 - 19) / 1000) = 16 :=
  closest_idx_binary32_eq ((51 * 16 - 19) / 1000) (797) (1797) (1817) (1816)
    (5950669 / 65536) (1816) (816) (16) 16
    (binary32_eq _ _ (9) (by decide!))
    (binary32_eq _ _ (10) (by decide!))
    (binary32_eq _ _ (10) (by decide!))
    (binary32_eq _ _ (10) (by decide!))
    (binary32_eq _ _ (6) (by decide!))
    (binary32_eq _ _ (10) (by decide!))
    (binary32_eq _ _ (9) (by decide!))
    (binary32_eq _ _ (4) (by decide!))
    (by decide!)

/-- The exact threshold of level 17 selects index 17 in binary32. -/
theorem closest_idx_binary32_level_17 : closest_idx_binary32 ((51 * 17 - 19) / 1000) = 17 :=
  closest_idx_binary32_eq ((51 * 17 - 19) / 1000) (848) (1848) (1868) (1867)
    (12235571 / 131072) (1867) (867) (17) 17
    (binary32_eq _ _ (9) (by decide!))
    (binary32_eq _ _ (10) (by decide!))
    (binary32_eq _ _ (10) (by decide!))
    (binary32_eq _ _ (10) (by decide!))
    (binary32_eq _ _ (6) (by decide!))
    (binary32_eq _ _ (10) (by decide!))
    (binary32_eq _ _ (9) (by decide!))
    (binary32_eq _ _ (4) (by decide!))
    (by decide!)

/-- The exact threshold of level 18 selects index 18 in binary32. -/
theorem closest_idx_binary32_level_18 : closest_idx_binary32 ((51 * 18 - 19) / 1000) = 18 :=
  closest_idx_binary32_eq ((51 * 18 - 19) / 1000) (899) (1899) (1919) (1918)
    (12569805 / 131072) (1918) (918) (18) 18
    (binary32_eq _ _ (9) (by decide!))
    (binary32_eq _ _ (10) (by decide!))
    (binary32_eq _ _ (10) (by decide!))
    (binary32_eq _ _ (10) (by decide!))
    (binary32_eq _ _ (6) (by decide!))
    (binary32_eq _ _ (10) (by decide!))
    (binary32_eq _ _ (9) (by decide!))
    (binary32_eq _ _ (4) (by decide!))
    (by decide!)

/-- The exact threshold of level 19 selects index 19 in binary32. -/
theorem closest_idx_binary32_level_19 : closest_idx_binary32 ((51 * 19 - 19) / 1000) = 19 :=
  closest_idx_binary32_eq ((51 * 19 - 19) / 1000) (950) (1950) (1970) (1969)
    (6452019 / 65536) (1969) (969) (19) 19
    (binary32_eq _ _ (9) (by decide!))
    (binary32_eq _ _ (10) (by decide!))
    (binary32_eq _ _ (10) (by decide!))
    (binary32_eq _ _ (10) (by decide!))
    (binary32_eq _ _ (6) (by decide!))
    (binary32_eq _ _ (10) (by decide!))
    (binary32_eq _ _ (9) (by decide!))
    (binary32_eq _ _ (4) (by decide!))
    (by decide!)

/-- The binary32 value 0x1.e66662p-1, just below 0.95, selects index 19 in binary32. -/
theorem closest_idx_binary32_below_19 : closest_idx_binary32 (15938353 / 16777216) = 19 :=
  closest_idx_binary32_eq (15938353 / 16777216) (7782399 / 8192) (15974399 / 8192) (16138239 / 8192)
    (16130047 / 8192)
    (6452019 / 65536) (1969) (969) (19) 19
    (binary32_eq _ _ (9) (by decide!))
    (binary32_eq _ _ (10) (by decide!))
    (binary32_eq _ _ (10) (by decide!))
    (binary32_eq _ _ (10) (by decide!))
    (binary32_eq _ _ (6) (by decide!))
    (binary32_eq _ _ (10) (by decide!))
    (binary32_eq _ _ (9) (by decide!))
    (binary32_eq _ _ (4) (by decide!))
    (by decide!)

/-- The binary32 value 0x1.5a1ca6p-2 is the last one that selects index 6. -/
theorem closest_idx_binary32_last_6 : closest_idx_binary32 (11341395 / 33554432) = 6 :=
  closest_idx_binary32_eq (11341395 / 33554432) (11075581 / 32768) (10960895 / 8192)
    (11124735 / 8192) (11116543 / 8192)
    (4446617 / 65536) (5558271 / 4096) (1462271 / 4096) (7340027 / 1048576) 6
    (binary32_eq _ _ (8) (by decide!))
    (binary32_eq _ _ (10) (by decide!))
    (binary32_eq _ _ (10) (by decide!))
    (binary32_eq _ _ (10) (by decide!))
    (binary32_eq _ _ (6) (by decide!))
    (binary32_eq _ _ (10) (by decide!))
    (binary32_eq _ _ (8) (by decide!))
    (binary32_eq _ _ (2) (by decide!))
    (by decide!)

/-- The binary32 value 0x1.5a1ca8p-2 is the first one that selects index 7. -/
theorem closest_idx_binary32_first_7 : closest_idx_binary32 (2835349 / 8388608) = 7 :=
  closest_idx_binary32_eq (2835349 / 8388608) (5537791 / 16384) (1338) (1358) (1357)
    (8893235 / 131072) (1357) (357) (7) 7
    (binary32_eq _ _ (8) (by decide!))
    (binary32_eq _ _ (10) (by decide!))
    (binary32_eq _ _ (10) (by decide!))
    (binary32_eq _ _ (10) (by decide!))
    (binary32_eq _ _ (6) (by decide!))
    (binary32_eq _ _ (10) (by decide!))
    (binary32_eq _ _ (8) (by decide!))
    (binary32_eq _ _ (2) (by decide!))
    (by decide!)

/-- The binary32 value 0x1.8e55fep-2 is the last one that selects index 7. -/
theorem closest_idx_binary32_last_7 : closest_idx_binary32 (13052671 / 33554432) = 7 :=
  closest_idx_binary32_eq (13052671 / 33554432) (12746749 / 32768) (11378687 / 8192)
    (11542527 / 8192) (11534335 / 8192)
    (2306867 / 32768) (11534335 / 8192) (3342335 / 8192) (16777211 / 2097152) 7
    (binary32_eq _ _ (8) (by decide!))
    (binary32_eq _ _ (10) (by decide!))
    (binary32_eq _ _ (10) (by decide!))
    (binary32_eq _ _ (10) (by decide!))
    (binary32_eq _ _ (6) (by decide!))
    (binary32_eq _ _ (10) (by decide!))
    (binary32_eq _ _ (8) (by decide!))
    (binary32_eq _ _ (2) (by decide!))
    (by decide!)

/-- The binary32 value 0x1.8e56p-2 is the first one that selects index 8. -/
theorem closest_idx_binary32_first_8 : closest_idx_binary32 (50987 / 131072) = 8 :=
  closest_idx_binary32_eq (50987 / 131072) (6373375 / 16384) (1389) (1409) (1408)
    (9227469 / 131072) (1408) (408) (8) 8
    (binary32_eq _ _ (8) (by decide!))
    (binary32_eq _ _ (10) (by decide!))
    (binary32_eq _ _ (10) (by decide!))
    (binary32_eq _ _ (10) (by decide!))
    (binary32_eq _ _ (6) (by decide!))
    (binary32_eq _ _ (10) (by decide!))
    (binary32_eq _ _ (8) (by decide!))
    (binary32_eq _ _ (3) (by decide!))
    (by decide!)

/-- The binary32 value of 0.35 selects index 7 in binary32. -/
theorem closest_idx_binary32_035 : closest_idx_binary32 (11744051 / 33554432) = 7 :=
  closest_idx_binary32_eq (11744051 / 33554432) (350) (1350) (1370) (1369)
    (4485939 / 65536) (1369) (369) (1896689 / 262144) 7
    (binary32_eq _ _ (8) (by decide!))
    (binary32_eq _ _ (10) (by decide!))
    (binary32_eq _ _ (10) (by decide!))
    (binary32_eq _ _ (10) (by decide!))
    (binary32_eq _ _ (6) (by decide!))
    (binary32_eq _ _ (10) (by decide!))
    (binary32_eq _ _ (8) (by decide!))
    (binary32_eq _ _ (2) (by decide!))
    (by decide!)

/-- The thrust stored for a zero coefficient. -/
theorem thrust_binary32_level_0 : thrust_binary32 0 = 0 :=
  thrust_binary32_eq 0 (0) (0) (2758454771764429 / 281474976710656)
    (0) (0)
    (by decide!)
    (by decide!)
    (binary64_eq _ _ (3) (by decide!))
    (by decide!)
    (by decide!)

/-- The thrust stored for level 7. -/
theorem thrust_binary32_level_7 : thrust_binary32 0.00584632270310872 = 7689865 / 134217728 :=
  thrust_binary32_eq 0.00584632270310872 (3370175583642637 / 576460752303423488)
    (6277441 / 1073741824) (2758454771764429 / 281474976710656)
    (8256929913005671 / 144115188075855872) (7689865 / 134217728)
    (binary64_eq _ _ (-8) (by decide!))
    (binary32_eq _ _ (-8) (by decide!))
    (binary64_eq _ _ (3) (by decide!))
    (binary64_eq _ _ (-5) (by decide!))
    (binary32_eq _ _ (-5) (by decide!))

/-- The thrust stored for level 10. -/
theorem thrust_binary32_level_10 : thrust_binary32 0.026399911495665 = 4340587 / 16777216 :=
  thrust_binary32_eq 0.026399911495665 (3804628210383711 / 144115188075855872)
    (14173345 / 536870912) (2758454771764429 / 281474976710656)
    (138898781 / 536870912) (4340587 / 16777216)
    (binary64_eq _ _ (-6) (by decide!))
    (binary32_eq _ _ (-6) (by decide!))
    (binary64_eq _ _ (3) (by decide!))
    (binary64_eq _ _ (-2) (by decide!))
    (binary32_eq _ _ (-2) (by decide!))

/-- The thrust stored for level 19. -/
theorem thrust_binary32_level_19 : thrust_binary32 0.156054104097401 = 1603619 / 1048576 :=
  thrust_binary32_eq 0.156054104097401 (2811220820250767 / 18014398509481984) (5236307 / 33554432)
    (2758454771764429 / 281474976710656)
    (6887491240774861 / 4503599627370496) (1603619 / 1048576)
    (binary64_eq _ _ (-3) (by decide!))
    (binary32_eq _ _ (-3) (by decide!))
    (binary64_eq _ _ (3) (by decide!))
    (binary64_eq _ _ (0) (by decide!))
    (binary32_eq _ _ (0) (by decide!))

/-! ## The lookup in binary32 arithmetic -/

/-- For a filtered control in `[0, 1]` the index computed in `float` arithmetic lies
within 0..19. -/
theorem closest_idx_binary32_bounds (f : ℚ) (h0 : 0 ≤ f) (h1 : f ≤ 1) :
    0 ≤ closest_idx_binary32 f ∧ closest_idx_binary32 f ≤ 19 := by
  have a := closest_idx_binary32_mono 0 f h0
  have b := closest_idx_binary32_mono f 1 h1
  rw [closest_idx_binary32_zero] at a
  rw [closest_idx_binary32_one] at b
  exact ⟨a, b⟩

/-- Between two controls whose indices are `k` and at most `k + 1` the index is `k` or
`k + 1`. -/
theorem closest_idx_binary32_window (k : Int) (lo hi f : ℚ)
    (hlo : closest_idx_binary32 lo = k) (hhi : closest_idx_binary32 hi ≤ k + 1)
    (h1 : lo ≤ f) (h2 : f ≤ hi) :
    k ≤ closest_idx_binary32 f ∧ closest_idx_binary32 f ≤ k + 1 := by
  have a := closest_idx_binary32_mono lo f h1
  have b := closest_idx_binary32_mono f hi h2
  rw [hlo] at a
  exact ⟨a, b.trans hhi⟩

/-- For a filtered control in `[0, 1]` the index computed in `float` arithmetic is the
index of exact arithmetic or one more. -/
theorem closest_idx_binary32_near_exact (f : ℚ) (h0 : 0 ≤ f) (h1 : f ≤ 1) :
    closest_idx f ≤ closest_idx_binary32 f ∧ closest_idx_binary32 f ≤ closest_idx f + 1 := by
  have hn := closest_idx_nonneg f h0
  have hl := closest_idx_le f h0 h1
  have hfl := closest_idx_of_nonneg f h0
  obtain ⟨k, hk⟩ : ∃ k, closest_idx f = k := ⟨_, rfl⟩
  rw [hk] at hn hl hfl ⊢
  have hb := Int.floor_eq_iff.mp hfl.symm
  have hb1 : 51 * (k : ℚ) ≤ 1000 * f + 19 := by
    have := (le_div_iff₀ (by norm_num : (0 : ℚ) < 51)).mp hb.1
    linarith
  have hb2 : 1000 * f + 19 ≤ 51 * ((k : ℚ) + 1) := by
    have := (div_lt_iff₀ (by norm_num : (0 : ℚ) < 51)).mp hb.2
    linarith
  clear hb hfl hk
  interval_cases k
  · exact closest_idx_binary32_window 0 0 ((51 * 1 - 19) / 1000) f
      closest_idx_binary32_zero (closest_idx_binary32_level_1.le.trans (by norm_num))
      h0 (by norm_num at hb2 ⊢; linarith)
  · exact closest_idx_binary32_window 1 ((51 * 1 - 19) / 1000) ((51 * 2 - 19) / 1000) f
      closest_idx_binary32_level_1 (closest_idx_binary32_level_2.le.trans (by norm_num))
      (by norm_num at hb1 ⊢; linarith) (by norm_num at hb2 ⊢; linarith)
  · exact closest_idx_binary32_window 2 ((51 * 2 - 19) / 1000) ((51 * 3 - 19) / 1000) f
      closest_idx_binary32_level_2 (closest_idx_binary32_level_3.le.trans (by norm_num))
      (by norm_num at hb1 ⊢; linarith) (by norm_num at hb2 ⊢; linarith)
  · exact closest_idx_binary32_window 3 ((51 * 3 - 19) / 1000) ((51 * 4 - 19) / 1000) f
      closest_idx_binary32_level_3 (closest_idx_binary32_level_4.le.trans (by norm_num))
      (by norm_num at hb1 ⊢; linarith) (by norm_num at hb2 ⊢; linarith)
  · exact closest_idx_binary32_window 4 ((51 * 4 - 19) / 1000) ((51 * 5 - 19) / 1000) f
      closest_idx_binary32_level_4 (closest_idx_binary32_level_5.le.trans (by norm_num))
      (by norm_num at hb1 ⊢; linarith) (by norm_num at hb2 ⊢; linarith)
  · exact closest_idx_binary32_window 5 ((51 * 5 - 19) / 1000) ((51 * 6 - 19) / 1000) f
      closest_idx_binary32_level_5 (closest_idx_binary32_level_6.le.trans (by norm_num))
      (by norm_num at hb1 ⊢; linarith) (by norm_num at hb2 ⊢; linarith)
  · exact closest_idx_binary32_window 6 ((51 * 6 - 19) / 1000) ((51 * 7 - 19) / 1000) f
      closest_idx_binary32_level_6 (closest_idx_binary32_level_7.le.trans (by norm_num))
      (by norm_num at hb1 ⊢; linarith) (by norm_num at hb2 ⊢; linarith)
  · exact closest_idx_binary32_window 7 ((51 * 7 - 19) / 1000) ((51 * 8 - 19) / 1000) f
      closest_idx_binary32_level_7 (closest_idx_binary32_level_8.le.trans (by norm_num))
      (by norm_num at hb1 ⊢; linarith) (by norm_num at hb2 ⊢; linarith)
  · exact closest_idx_binary32_window 8 ((51 * 8 - 19) / 1000) ((51 * 9 - 19) / 1000) f
      closest_idx_binary32_level_8 (closest_idx_binary32_level_9.le.trans (by norm_num))
      (by norm_num at hb1 ⊢; linarith) (by norm_num at hb2 ⊢; linarith)
  · exact closest_idx_binary32_window 9 ((51 * 9 - 19) / 1000) ((51 * 10 - 19) / 1000) f
      closest_idx_binary32_level_9 (closest_idx_binary32_level_10.le.trans (by norm_num))
      (by norm_num at hb1 ⊢; linarith) (by norm_num at hb2 ⊢; linarith)
  · exact closest_idx_binary32_window 10 ((51 * 10 - 19) / 1000) ((51 * 11 - 19) / 1000) f
      closest_idx_binary32_level_10 (closest_idx_binary32_level_11.le.trans (by norm_num))
      (by norm_num at hb1 ⊢; linarith) (by norm_num at hb2 ⊢; linarith)
  · exact closest_idx_binary32_window 11 ((51 * 11 - 19) / 1000) ((51 * 12 - 19) / 1000) f
      closest_idx_binary32_level_11 (closest_idx_binary32_level_12.le.trans (by norm_num))
      (by norm_num at hb1 ⊢; linarith) (by norm_num at hb2 ⊢; linarith)
  · exact closest_idx_binary32_window 12 ((51 * 12 - 19) / 1000) ((51 * 13 - 19) / 1000) f
      closest_idx_binary32_level_12 (closest_idx_binary32_level_13.le.trans (by norm_num))
      (by norm_num at hb1 ⊢; linarith) (by norm_num at hb2 ⊢; linarith)
  · exact closest_idx_binary32_window 13 ((51 * 13 - 19) / 1000) ((51 * 14 - 19) / 1000) f
      closest_idx_binary32_level_13 (closest_idx_binary32_level_14.le.trans (by norm_num))
      (by norm_num at hb1 ⊢; linarith) (by norm_num at hb2 ⊢; linarith)
  · exact closest_idx_binary32_window 14 ((51 * 14 - 19) / 1000) ((51 * 15 - 19) / 1000) f
      closest_idx_binary32_level_14 (closest_idx_binary32_level_15.le.trans (by norm_num))
      (by norm_num at hb1 ⊢; linarith) (by norm_num at hb2 ⊢; linarith)
  · exact closest_idx_binary32_window 15 ((51 * 15 - 19) / 1000) ((51 * 16 - 19) / 1000) f
      closest_idx_binary32_level_15 (closest_idx_binary32_level_16.le.trans (by norm_num))
      (by norm_num at hb1 ⊢; linarith) (by norm_num at hb2 ⊢; linarith)
  · exact closest_idx_binary32_window 16 ((51 * 16 - 19) / 1000) ((51 * 17 - 19) / 1000) f
      closest_idx_binary32_level_16 (closest_idx_binary32_level_17.le.trans (by norm_num))
      (by norm_num at hb1 ⊢; linarith) (by norm_num at hb2 ⊢; linarith)
  · exact closest_idx_binary32_window 17 ((51 * 17 - 19) / 1000) ((51 * 18 - 19) / 1000) f
      closest_idx_binary32_level_17 (closest_idx_binary32_level_18.le.trans (by norm_num))
      (by norm_num at hb1 ⊢; linarith) (by norm_num at hb2 ⊢; linarith)
  · exact closest_idx_binary32_window 18 ((51 * 18 - 19) / 1000) ((51 * 19 - 19) / 1000) f
      closest_idx_binary32_level_18 (closest_idx_binary32_level_19.le.trans (by norm_num))
      (by norm_num at hb1 ⊢; linarith) (by norm_num at hb2 ⊢; linarith)
  · exact closest_idx_binary32_window 19 ((51 * 19 - 19) / 1000) 1 f
      closest_idx_binary32_level_19 (closest_idx_binary32_one.le.trans (by norm_num))
      (by norm_num at hb1 ⊢; linarith) h1

/-- The speeds of the levels 0..19 are `float` values: storing them changes nothing. -/
theorem motor_speeds_binary32_exact (i : Nat) (hi : i ≤ 19) (s : real_T)
    (hs : motor_speeds[i]? = some s) : binary32 s = s := by
  interval_cases i <;>
    simp only [motor_speeds, List.getElem?_cons_succ, List.getElem?_cons_zero,
      Option.some.injEq] at hs <;>
    subst hs
  · exact binary32_zero
  · exact binary32_zero
  · exact binary32_zero
  · exact binary32_zero
  · exact binary32_zero
  · exact binary32_zero
  · exact binary32_zero
  · exact binary32_zero
  · exact binary32_eq _ _ (11) (by decide!)
  · exact binary32_eq _ _ (12) (by decide!)
  · exact binary32_eq _ _ (12) (by decide!)
  · exact binary32_eq _ _ (12) (by decide!)
  · exact binary32_eq _ _ (12) (by decide!)
  · exact binary32_eq _ _ (12) (by decide!)
  · exact binary32_eq _ _ (12) (by decide!)
  · exact binary32_eq _ _ (13) (by decide!)
  · exact binary32_eq _ _ (13) (by decide!)
  · exact binary32_eq _ _ (13) (by decide!)
  · exact binary32_eq _ _ (13) (by decide!)
  · exact binary32_eq _ _ (13) (by decide!)

/-- The output `setOutput_binary32` writes, in terms of the two table reads. -/
theorem setOutput_binary32_eq (o : Output) (p : RotorParams) (flt : FirstOrderFilter)
    (d : RotorTurningDirection) (i : Nat) (speed coeff : real_T)
    (hi : closest_idx_binary32 flt.output = i) (hs : motor_speeds[i]? = some speed)
    (ht : motor_thrusts[i]? = some coeff) :
    setOutput_binary32 o p flt d = some
      { thrust := thrust_binary32 coeff
        torque_scaler :=
          binary32 (binary32 (thrust_binary32 coeff * 12) * (d.toInt : real_T))
        speed := binary32 speed
        turning_direction := d
        control_signal_filtered := flt.output
        control_signal_input := flt.input } := by
  simp [setOutput_binary32, FirstOrderFilter.getInput, FirstOrderFilter.getOutput, hi,
    arrayAt_ofNat, motor_speeds_binary32, motor_thrusts_binary32, List.getElem?_map, hs, ht,
    thrust_binary32]

/-- For a filtered control in `[0, 1]` the index computed in `float` arithmetic is a
natural number of at most 19, both table reads are defined and `setOutput_binary32`
returns the record built from them. -/
theorem setOutput_binary32_in_range (o : Output) (p : RotorParams) (flt : FirstOrderFilter)
    (d : RotorTurningDirection) (h0 : 0 ≤ flt.output) (h1 : flt.output ≤ 1) :
    ∃ (i : Nat) (speed coeff : real_T), i ≤ 19 ∧ closest_idx_binary32 flt.output = i ∧
      motor_speeds[i]? = some speed ∧ motor_thrusts[i]? = some coeff ∧
      setOutput_binary32 o p flt d = some
        { thrust := thrust_binary32 coeff
          torque_scaler :=
            binary32 (binary32 (thrust_binary32 coeff * 12) * (d.toInt : real_T))
          speed := speed
          turning_direction := d
          control_signal_filtered := flt.output
          control_signal_input := flt.input } := by
  obtain ⟨hn, hl⟩ := closest_idx_binary32_bounds flt.output h0 h1
  obtain ⟨i, hi⟩ := Int.eq_ofNat_of_zero_le hn
  have hi19 : i ≤ 19 := by omega
  have hs : i < motor_speeds.length := by rw [motor_speeds_length]; omega
  have ht : i < motor_thrusts.length := by rw [motor_thrusts_length]; omega
  have hsp := List.getElem?_eq_getElem hs
  have hex := motor_speeds_binary32_exact i hi19 _ hsp
  refine ⟨i, motor_speeds[i], motor_thrusts[i], hi19, hi, hsp, List.getElem?_eq_getElem ht, ?_⟩
  rw [setOutput_binary32_eq o p flt d i _ _ hi hsp (List.getElem?_eq_getElem ht), hex]

/-- The stored thrust is not negative for a coefficient that is not negative. -/
theorem thrust_binary32_nonneg (c : ℚ) (h : 0 ≤ c) : 0 ≤ thrust_binary32 c := by
  have := thrust_binary32_mono 0 c h
  rw [thrust_binary32_level_0] at this
  exact this

/-- The output `setOutput_binary32` writes at a level of at most 19 whose stored thrust
is known. -/
theorem setOutput_binary32_at (o : Output) (p : RotorParams) (flt : FirstOrderFilter)
    (d : RotorTurningDirection) (i : Nat) (speed coeff t : real_T) (hi19 : i ≤ 19)
    (hi : closest_idx_binary32 flt.output = i) (hs : motor_speeds[i]? = some speed)
    (ht : motor_thrusts[i]? = some coeff) (hth : thrust_binary32 coeff = t) :
    setOutput_binary32 o p flt d = some
      { thrust := t
        torque_scaler := binary32 (binary32 (t * 12) * (d.toInt : real_T))
        speed := speed
        turning_direction := d
        control_signal_filtered := flt.output
        control_signal_input := flt.input } := by
  rw [setOutput_binary32_eq o p flt d i speed coeff hi hs ht,
    motor_speeds_binary32_exact i hi19 speed hs, hth]

/-- The index of exact arithmetic at the `float` 15938353/16777216, just below 0.95. -/
theorem closest_idx_below_19 : closest_idx (15938353 / 16777216) = 18 := by
  rw [closest_idx_of_nonneg _ (by norm_num), Int.floor_eq_iff]
  constructor <;> norm_num

/-- C9 as stated fails at filtered control 15938353/16777216 (the `float`
0x1.e66662p-1), which lies in `[0, 1]`: the truncation in exact arithmetic is 18, while
the `float` arithmetic of `setOutput` gives index 19, and the reported speed is
11580 = `motor_speeds[19]`, not `motor_speeds[18]` = 10872. At filtered control 1/2 the
reported thrust is 4340587/16777216, not `9.8 * 0.026399911495665`. -/
theorem C9_counterexample :
    (0 : real_T) ≤ 15938353 / 16777216 ∧ (15938353 / 16777216 : real_T) ≤ 1 ∧
    closest_idx (15938353 / 16777216) = 18 ∧
    closest_idx_binary32 (15938353 / 16777216) = 19 ∧
    motor_speeds[18]? = some 10872 ∧
    (∃ out, setOutput_binary32 example_actuator.output_ example_actuator.params_
        ⟨0, 1, 15938353 / 16777216⟩ .RotorTurningDirectionCW = some out ∧
      out.speed = 11580 ∧ out.speed ≠ 10872) ∧
    (∃ out, setOutput_binary32 example_actuator.output_ example_actuator.params_
        ⟨0, 1 / 2, 1 / 2⟩ .RotorTurningDirectionCW = some out ∧
      out.thrust = 4340587 / 16777216 ∧ out.thrust ≠ 9.8 * 0.026399911495665) := by
  refine ⟨by norm_num, by norm_num, closest_idx_below_19, closest_idx_binary32_below_19, rfl,
    ⟨_, setOutput_binary32_at _ _ _ _ 19 11580 0.156054104097401 _ (by norm_num)
      closest_idx_binary32_below_19 rfl rfl thrust_binary32_level_19, rfl, ?_⟩,
    ⟨_, setOutput_binary32_at _ _ _ _ 10 5322 0.026399911495665 _ (by norm_num)
      closest_idx_binary32_half rfl rfl thrust_binary32_level_10, rfl, ?_⟩⟩
  · norm_num
  · norm_num

/-- C9, amended: for every filtered control `f` in `[0, 1]`, `setOutput`, evaluated in
the `float` arithmetic of the code, returns an output whose speed and thrust come from
one and the same index `i` of at most 19: `i` is the truncation of
`((1000 + f * 1000 + 20 - 1) / 20 * 20 - 1000) / 51` with every operation rounded to
binary32, which is the truncation in exact arithmetic or one more; the speed is
`motor_speeds[i]` and the thrust is the `float` nearest to the `double` product of 9.8
and the stored `float` entry `motor_thrusts[i]`. A filter step with weight 0 (time
constant 0) and input 1/2 gives filter output 1/2; for filtered control 1/2 the index is
10, the speed 5322 and the thrust 4340587/16777216, also for the filter after that
step. -/
theorem C9_lookup_binary32 :
    (∀ (o : Output) (p : RotorParams) (flt : FirstOrderFilter) (d : RotorTurningDirection),
      0 ≤ flt.getOutput → flt.getOutput ≤ 1 →
        ∃ (i : Nat) (speed coeff : real_T) (out : Output),
          i ≤ 19 ∧
          static_cast_int (binary32 (binary32 (binary32 (binary32 (binary32 (binary32
            (binary32 (1000 + binary32 (flt.getOutput * 1000)) + 20) - 1) / 20) * 20)
              - 1000) / 51)) = i ∧
          closest_idx flt.getOutput ≤ i ∧ (i : Int) ≤ closest_idx flt.getOutput + 1 ∧
          motor_speeds[i]? = some speed ∧ motor_thrusts[i]? = some coeff ∧
          setOutput_binary32 o p flt d = some out ∧ out.speed = speed ∧
          out.thrust = binary32 (binary64 (binary64 9.8 * binary32 (binary64 coeff)))) ∧
    (∀ flt : FirstOrderFilter, flt.getInput = 1 / 2 → (flt.update 0).getOutput = 1 / 2) ∧
    (∀ (o : Output) (p : RotorParams) (flt : FirstOrderFilter) (d : RotorTurningDirection),
      flt.getOutput = 1 / 2 →
        ∃ out, closest_idx_binary32 flt.getOutput = 10 ∧
          motor_speeds[10]? = some 5322 ∧
          motor_thrusts[10]? = some (0.026399911495665 : real_T) ∧
          setOutput_binary32 o p flt d = some out ∧ out.speed = 5322 ∧
          out.thrust = 4340587 / 16777216) ∧
    (∀ (o : Output) (p : RotorParams) (flt : FirstOrderFilter) (d : RotorTurningDirection),
      flt.getInput = 1 / 2 →
        ∃ out, setOutput_binary32 o p (flt.update 0) d = some out ∧ out.speed = 5322 ∧
          out.thrust = 4340587 / 16777216) := by
  have hstep : ∀ flt : FirstOrderFilter, flt.getInput = 1 / 2 →
      (flt.update 0).output = 1 / 2 := by
    intro flt h
    have h' : flt.input = 1 / 2 := h
    simp [FirstOrderFilter.update, h']
  have hhalf : ∀ (o : Output) (p : RotorParams) (flt : FirstOrderFilter)
      (d : RotorTurningDirection), flt.output = 1 / 2 →
      closest_idx_binary32 flt.output = 10 ∧
      setOutput_binary32 o p flt d = some
        { thrust := 4340587 / 16777216
          torque_scaler :=
            binary32 (binary32 (4340587 / 16777216 * 12) * (d.toInt : real_T))
          speed := 5322
          turning_direction := d
          control_signal_filtered := flt.output
          control_signal_input := flt.input } := by
    intro o p flt d h
    have hi : closest_idx_binary32 flt.output = (10 : Nat) := by
      rw [h]
      exact closest_idx_binary32_half
    exact ⟨hi, setOutput_binary32_at o p flt d 10 5322 0.026399911495665 _ (by norm_num)
      hi rfl rfl thrust_binary32_level_10⟩
  refine ⟨?_, ?_, ?_, ?_⟩
  · intro o p flt d h0 h1
    have h0' : 0 ≤ flt.output := h0
    have h1' : flt.output ≤ 1 := h1
    obtain ⟨i, speed, coeff, hi19, hi, hs, hc, ho⟩ :=
      setOutput_binary32_in_range o p flt d h0' h1'
    obtain ⟨ha, hb⟩ := closest_idx_binary32_near_exact flt.output h0' h1'
    rw [hi] at ha hb
    exact ⟨i, speed, coeff, _, hi19, hi, ha, hb, hs, hc, ho, rfl, rfl⟩
  · exact hstep
  · intro o p flt d h
    obtain ⟨hi, ho⟩ := hhalf o p flt d h
    exact ⟨_, hi, rfl, rfl, ho, rfl, rfl⟩
  · intro o p flt d h
    obtain ⟨_, ho⟩ := hhalf o p (flt.update 0) d (hstep flt h)
    exact ⟨_, ho, rfl, rfl⟩

/-- C9, amended, at the example actuator: a filter with input 1/2, advanced with
weight 0, then the lookup. -/
theorem C9_lookup_binary32_witness :
    ∃ out, setOutput_binary32 example_actuator.output_ example_actuator.params_
        (( ⟨0, 1 / 2, 0⟩ : FirstOrderFilter).update 0) .RotorTurningDirectionCW = some out ∧
      out.speed = 5322 ∧ out.thrust = 4340587 / 16777216 :=
  C9_lookup_binary32.2.2.2 example_actuator.output_ example_actuator.params_ ⟨0, 1 / 2, 0⟩
    .RotorTurningDirectionCW rfl

/-- C12 as stated fails at filtered control 11744051/33554432 (the `float` nearest to
0.35): it lies in `[0, 1]` and selects level 7, whose speed entry is 0, and the reported
speed is 0, but the reported thrust is 7689865/134217728 (about 0.0573), not 0. -/
theorem C12_counterexample_binary32 :
    ∃ out, setOutput_binary32 example_actuator.output_ example_actuator.params_
        ⟨0, 11744051 / 33554432, 11744051 / 33554432⟩ .RotorTurningDirectionCW = some out ∧
      (0 : real_T) ≤ 11744051 / 33554432 ∧ (11744051 / 33554432 : real_T) ≤ 1 ∧
      arrayAt motor_speeds_binary32 (closest_idx_binary32 (11744051 / 33554432)) = some 0 ∧
      out.speed = 0 ∧ out.thrust = 7689865 / 134217728 ∧ out.thrust ≠ 0 := by
  refine ⟨_, setOutput_binary32_at _ _ _ _ 7 0 0.00584632270310872 _ (by norm_num)
    closest_idx_binary32_035 rfl rfl thrust_binary32_level_7, by norm_num, by norm_num, ?_,
    rfl, rfl, ?_⟩
  · rw [closest_idx_binary32_035]
    have h : arrayAt motor_speeds_binary32 ((7 : Nat) : Int) = some (binary32 0) := by
      rw [arrayAt_ofNat]
      simp [motor_speeds_binary32, List.getElem?_map, motor_speeds]
    rw [binary32_zero] at h
    exact h
  · norm_num

/-- C12, amended: for every filtered control value in `[0, 1]`, `setOutput`, evaluated
in the `float` arithmetic of the code, returns an output with speed and thrust that are
not negative. When the selected level has speed entry 0, the reported speed is exactly 0
and the level is one of 0..7; the reported thrust is exactly 0 on the levels 0..6 and is
7689865/134217728 on level 7. The level is at most 6 up to the `float`
11341395/33554432 and at least 7 from the next `float` 2835349/8388608 (just below 0.338)
on; it is at most 7 up to 13052671/33554432 and at least 8 from the next `float`
50987/131072 (just below 0.389) on. -/
theorem C12_stall_levels_binary32 (o : Output) (p : RotorParams) (flt : FirstOrderFilter)
    (d : RotorTurningDirection) (h0 : 0 ≤ flt.getOutput) (h1 : flt.getOutput ≤ 1) :
    ∃ (out : Output) (i : Nat), setOutput_binary32 o p flt d = some out ∧
      closest_idx_binary32 flt.getOutput = i ∧ 0 ≤ out.speed ∧ 0 ≤ out.thrust ∧
      (motor_speeds[i]? = some 0 →
        out.speed = 0 ∧ i ≤ 7 ∧ (i ≤ 6 → out.thrust = 0) ∧
        (i = 7 → out.thrust = 7689865 / 134217728)) ∧
      (flt.getOutput ≤ 11341395 / 33554432 → i ≤ 6) ∧
      (2835349 / 8388608 ≤ flt.getOutput → 7 ≤ i) ∧
      (flt.getOutput ≤ 13052671 / 33554432 → i ≤ 7) ∧
      (50987 / 131072 ≤ flt.getOutput → 8 ≤ i) := by
  have h0' : 0 ≤ flt.output := h0
  have h1' : flt.output ≤ 1 := h1
  obtain ⟨i, speed, coeff, hi19, hi, hs, hc, ho⟩ :=
    setOutput_binary32_in_range o p flt d h0' h1'
  obtain ⟨hsp0, _, hco0, _⟩ := table_bounds i hi19 speed coeff hs hc
  have hup : ∀ (a : real_T) (k : Nat), closest_idx_binary32 a = k → flt.getOutput ≤ a →
      i ≤ k := by
    intro a k ha hle
    have := closest_idx_binary32_mono flt.output a hle
    rw [hi, ha] at this
    exact_mod_cast this
  have hdown : ∀ (a : real_T) (k : Nat), closest_idx_binary32 a = k → a ≤ flt.getOutput →
      k ≤ i := by
    intro a k ha hle
    have := closest_idx_binary32_mono a flt.output hle
    rw [hi, ha] at this
    exact_mod_cast this
  refine ⟨_, i, ho, hi, hsp0, thrust_binary32_nonneg coeff hco0, ?_,
    hup _ 6 closest_idx_binary32_last_6, hdown _ 7 closest_idx_binary32_first_7,
    hup _ 7 closest_idx_binary32_last_7, hdown _ 8 closest_idx_binary32_first_8⟩
  intro hz
  rw [hs] at hz
  have hz' : speed = 0 := Option.some.inj hz
  refine ⟨hz', motor_speeds_zero_level i hi19 (hz' ▸ hs), ?_, ?_⟩
  · intro h6
    show thrust_binary32 coeff = 0
    rw [motor_thrusts_zero_level i h6 coeff hc]
    exact thrust_binary32_level_0
  · intro h7
    subst h7
    have : coeff = 0.00584632270310872 := by
      have e : motor_thrusts[7]? = some (0.00584632270310872 : real_T) := rfl
      rw [e] at hc
      exact (Option.some.inj hc).symm
    show thrust_binary32 coeff = 7689865 / 134217728
    rw [this]
    exact thrust_binary32_level_7

/-- C12, amended, at filtered control 11341395/33554432, the last `float` on level 6. -/
theorem C12_stall_levels_binary32_witness :
    ∃ (out : Output) (i : Nat), setOutput_binary32 example_actuator.output_
        example_actuator.params_ ⟨0, 1, 11341395 / 33554432⟩ .RotorTurningDirectionCW
          = some out ∧
      closest_idx_binary32 (11341395 / 33554432) = i ∧ i ≤ 6 ∧ out.speed = 0 ∧
      out.thrust = 0 := by
  obtain ⟨out, i, ho, hi, _, _, hz, h6, _⟩ := C12_stall_levels_binary32
    example_actuator.output_ example_actuator.params_ ⟨0, 1, 11341395 / 33554432⟩
    .RotorTurningDirectionCW
    (by norm_num [FirstOrderFilter.getOutput]) (by norm_num [FirstOrderFilter.getOutput])
  have hi6 : i ≤ 6 := h6 le_rfl
  have hsp : motor_speeds[i]? = some 0 := by
    interval_cases i <;> rfl
  exact ⟨out, i, ho, hi, hi6, (hz hsp).1, (hz hsp).2.2.1 hi6⟩

/-- C18 as stated fails at filtered control 1: the index is 19 and the speed 11580, but
the reported thrust is 1603619/1048576, the `float` that the assignment stores, which
exceeds `9.8 * 0.156054104097401`. -/
theorem C18_counterexample :
    ∃ out, setOutput_binary32 example_actuator.output_ example_actuator.params_
        ⟨0, 1, 1⟩ .RotorTurningDirectionCW = some out ∧
      closest_idx_binary32 1 = 19 ∧ out.speed = 11580 ∧
      out.thrust = 1603619 / 1048576 ∧ 9.8 * 0.156054104097401 < out.thrust := by
  refine ⟨_, setOutput_binary32_at _ _ _ _ 19 11580 0.156054104097401 _ (by norm_num)
    closest_idx_binary32_one rfl rfl thrust_binary32_level_19, closest_idx_binary32_one, rfl,
    rfl, ?_⟩
  norm_num

/-- C18, amended: for every filtered control value in `[0, 1]` the index that
`setOutput` computes in the `float` arithmetic of the code is at most 19, and it is 19 at
filtered control 1, so none of the levels 20..50 is selected; the reported speed lies
between 0 and 11580 and the reported thrust between 0 and 1603619/1048576, the `float`
stored for `9.8 * motor_thrusts[19]` (about 1.52933025), which is reported at filtered
control 1. -/
theorem C18_index_at_most_19_binary32 (o : Output) (p : RotorParams)
    (flt : FirstOrderFilter) (d : RotorTurningDirection) (h0 : 0 ≤ flt.getOutput)
    (h1 : flt.getOutput ≤ 1) :
    closest_idx_binary32 flt.getOutput ≤ 19 ∧ closest_idx_binary32 1 = 19 ∧
    (∀ k : Int, 20 ≤ k → k ≤ 50 → closest_idx_binary32 flt.getOutput ≠ k) ∧
    (∃ out, setOutput_binary32 o p flt d = some out ∧
      0 ≤ out.speed ∧ out.speed ≤ 11580 ∧
      0 ≤ out.thrust ∧ out.thrust ≤ 1603619 / 1048576) ∧
    (flt.getOutput = 1 → ∃ out, setOutput_binary32 o p flt d = some out ∧
      out.speed = 11580 ∧ out.thrust = 1603619 / 1048576) := by
  have h0' : 0 ≤ flt.output := h0
  have h1' : flt.output ≤ 1 := h1
  have hle := (closest_idx_binary32_bounds flt.output h0' h1').2
  obtain ⟨i, speed, coeff, hi19, hi, hs, hc, ho⟩ :=
    setOutput_binary32_in_range o p flt d h0' h1'
  obtain ⟨a, b, c, e⟩ := table_bounds i hi19 speed coeff hs hc
  refine ⟨hle, closest_idx_binary32_one, ?_, ⟨_, ho, a, b, thrust_binary32_nonneg coeff c, ?_⟩,
    ?_⟩
  · intro k hk _ hcon
    have : closest_idx_binary32 flt.output = k := hcon
    omega
  · show thrust_binary32 coeff ≤ 1603619 / 1048576
    have := thrust_binary32_mono coeff 0.156054104097401 e
    rw [thrust_binary32_level_19] at this
    exact this
  · intro hone
    have hone' : flt.output = 1 := hone
    have hi1 : closest_idx_binary32 flt.output = (19 : Nat) := by
      rw [hone']
      exact closest_idx_binary32_one
    exact ⟨_, setOutput_binary32_at o p flt d 19 11580 0.156054104097401 _ (by norm_num)
      hi1 rfl rfl thrust_binary32_level_19, rfl, rfl⟩

/-- C18, amended, at filtered control 3/4. -/
theorem C18_index_at_most_19_binary32_witness :
    closest_idx_binary32 (3 / 4) ≤ 19 ∧
    ∃ out, setOutput_binary32 example_actuator.output_ example_actuator.params_
        ⟨0, 1, 3 / 4⟩ .RotorTurningDirectionCW = some out ∧
      out.speed ≤ 11580 ∧ out.thrust ≤ 1603619 / 1048576 := by
  obtain ⟨h, _, _, ⟨out, ho, _, hs, _, ht⟩, _⟩ := C18_index_at_most_19_binary32
    example_actuator.output_ example_actuator.params_ ⟨0, 1, 3 / 4⟩ .RotorTurningDirectionCW
    (by norm_num [FirstOrderFilter.getOutput]) (by norm_num [FirstOrderFilter.getOutput])
  exact ⟨h, out, ho, hs, ht⟩

end msr.airlib
